import Mathlib

/-!
Verification of the BSW scheduling agent's domain engine and conversation
control against its specification.

The Python sources are shallowly embedded:

* strings are embedded as `List Char` (`Str`); Python's `s.lower()` becomes a
  `Char.toLower` map (all data involved is ASCII), Python's `needle in
  haystack` substring test becomes `substrOf`, and Python's lexicographic
  string comparison becomes `strLe` on code points;
* the module-level globals `ALL_APPOINTMENT_SLOTS`, `PROVIDERS` and
  `PATIENTS` of `mock_data.py` become an explicit `SchedState` record that is
  threaded through the tool functions; `book_appointment` is the only
  operation that returns an updated state;
* calendar dates are abstracted to their day number: a visit's parsed
  `"%Y-%m-%d"` date becomes `dateDay : Int` and `datetime.now()` becomes a
  `today : Int` parameter.  Since stored dates are midnights,
  `(datetime.now() - visit_date).days` equals `today - dateDay` exactly;
* the OpenAI completion service is an explicit function parameter (for the
  router: an `Except` value, since only one call is made per route).

Result dictionaries are embedded as structures carrying the fields the
specification talks about; purely cosmetic echo fields (phone numbers,
free-text recommendations, timestamps) are elided and noted at each
definition.
-/

/-- Python `str` embedded as a list of characters. -/
abbrev Str := List Char

/-- Mirrors Python `s.lower()` (the data involved is ASCII). -/
def lowerStr (s : Str) : Str := s.map Char.toLower

/-- Mirrors Python `needle == haystack[:len(needle)]`: `needle` starts `haystack`. -/
def leadsStr : Str → Str → Bool
  | [], _ => true
  | _ :: _, [] => false
  | a :: as, b :: bs => a = b && leadsStr as bs

/-- Mirrors Python `needle in haystack` (substring containment). -/
def substrOf (needle : Str) : Str → Bool
  | [] => needle.isEmpty
  | c :: rest => leadsStr needle (c :: rest) || substrOf needle rest

/-- Python lexicographic `<=` on strings, by code point. -/
def strLe : Str → Str → Bool
  | [], _ => true
  | _ :: _, [] => false
  | a :: as, b :: bs => if a.toNat = b.toNat then strLe as bs else a.toNat < b.toNat

theorem strLe_refl (s : Str) : strLe s s = true := by
  induction s with
  | nil => rfl
  | cons a as ih => simp [strLe, ih]

theorem strLe_total (a b : Str) : strLe a b = true ∨ strLe b a = true := by
  induction a generalizing b with
  | nil => left; rfl
  | cons x xs ih =>
    cases b with
    | nil => right; rfl
    | cons y ys =>
      by_cases hxy : x.toNat = y.toNat
      · simp only [strLe, hxy, if_pos rfl, if_pos hxy.symm]
        simpa using ih ys
      · have hyx : ¬ y.toNat = x.toNat := fun h => hxy h.symm
        simp only [strLe, if_neg hxy, if_neg hyx]
        rcases Nat.lt_or_ge x.toNat y.toNat with h | h
        · left; simpa using h
        · right; have : y.toNat < x.toNat := lt_of_le_of_ne h hyx
          simpa using this

theorem strLe_trans {a b c : Str} (hab : strLe a b = true) (hbc : strLe b c = true) :
    strLe a c = true := by
  induction a generalizing b c with
  | nil => rfl
  | cons x xs ih =>
    cases b with
    | nil => simp [strLe] at hab
    | cons y ys =>
      cases c with
      | nil => simp [strLe] at hbc
      | cons z zs =>
        simp only [strLe] at hab hbc ⊢
        by_cases hxy : x.toNat = y.toNat
        · by_cases hyz : y.toNat = z.toNat
          · have hxz : x.toNat = z.toNat := hxy.trans hyz
            rw [if_pos hxy] at hab
            rw [if_pos hyz] at hbc
            rw [if_pos hxz]
            exact ih hab hbc
          · have hxz : ¬ x.toNat = z.toNat := by rw [hxy]; exact hyz
            rw [if_neg hyz] at hbc
            rw [if_neg hxz, hxy]
            exact hbc
        · by_cases hyz : y.toNat = z.toNat
          · have hxz : ¬ x.toNat = z.toNat := by rw [← hyz]; exact hxy
            rw [if_neg hxy] at hab
            rw [if_neg hxz, ← hyz]
            exact hab
          · rw [if_neg hxy] at hab
            rw [if_neg hyz] at hbc
            have h1 : x.toNat < y.toNat := by simpa using hab
            have h2 : y.toNat < z.toNat := by simpa using hbc
            have hxz : x.toNat < z.toNat := h1.trans h2
            rw [if_neg (Nat.ne_of_lt hxz)]
            simpa using hxz

theorem charToNat_inj {a b : Char} (h : a.toNat = b.toNat) : a = b :=
  Char.ext (UInt32.ext h)

theorem strLe_antisymm {a b : Str} (hab : strLe a b = true) (hba : strLe b a = true) :
    a = b := by
  induction a generalizing b with
  | nil => cases b with
    | nil => rfl
    | cons y ys => simp [strLe] at hba
  | cons x xs ih =>
    cases b with
    | nil => simp [strLe] at hab
    | cons y ys =>
      simp only [strLe] at hab hba
      by_cases hxy : x.toNat = y.toNat
      · have hx : x = y := charToNat_inj hxy
        rw [if_pos hxy] at hab
        rw [if_pos (hxy.symm)] at hba
        rw [hx, ih hab hba]
      · have hyx : ¬ y.toNat = x.toNat := fun h => hxy h.symm
        rw [if_neg hxy] at hab
        rw [if_neg hyx] at hba
        have h1 : x.toNat < y.toNat := by simpa using hab
        have h2 : y.toNat < x.toNat := by simpa using hba
        exact absurd (h1.trans h2) (lt_irrefl _)

theorem leadsStr_append (p t : Str) : leadsStr p (p ++ t) = true := by
  induction p with
  | nil => rfl
  | cons a as ih => simp [leadsStr, ih]

/-- A prefix of a string is a substring of it. -/
theorem substrOf_of_append (p t : Str) : substrOf p (p ++ t) = true := by
  cases p with
  | nil =>
    cases t with
    | nil => rfl
    | cons c cs => simp [substrOf, leadsStr]
  | cons a as =>
    show substrOf (a :: as) (a :: (as ++ t)) = true
    have h := leadsStr_append (a :: as) t
    simp only [List.cons_append] at h
    simp [substrOf, h]

/-- A string is a substring of itself (used for the appointment-type filter:
an exact match is in particular a partial match). -/
theorem substrOf_self (s : Str) : substrOf s s = true := by
  simpa using substrOf_of_append s []

/-! ## Data model (mock_data.py)

Fields that none of the verified operations consult (demographics, addresses,
phone numbers, credentials, languages, availability weekdays, slot-generation
parameters) are elided; the remaining fields keep their source names. -/

/-- Mirrors the `AppointmentSlot` dataclass of mock_data.py. -/
structure AppointmentSlot where
  slot_id : Str
  provider_id : Str
  date : Str
  time : Str
  duration : Nat
  appointment_type : Str
  is_available : Bool
  location : Str
deriving DecidableEq

/-- Mirrors the `Provider` dataclass of mock_data.py (`sub_specialty` is
`Optional[str]` in the source but every stored value is a string). -/
structure Provider where
  provider_id : Str
  first_name : Str
  last_name : Str
  specialty : Str
  sub_specialty : Str
  city : Str
  location : Str
  phone : Str
  accepting_new_patients : Bool
  insurance_accepted : List Str
deriving DecidableEq

/-- Mirrors one entry of a patient's `recent_visits` list: the parsed
`"%Y-%m-%d"` date is abstracted to its day number `dateDay`. -/
structure Visit where
  dateDay : Int
  provider : Str
  specialty : Str
  notes : Str
deriving DecidableEq

/-- Mirrors the `Patient` dataclass of mock_data.py. -/
structure Patient where
  patient_id : Str
  first_name : Str
  last_name : Str
  insurance_provider : Str
  primary_care_provider : Option Str
  recent_visits : List Visit
deriving DecidableEq

/-- The module-level globals `ALL_APPOINTMENT_SLOTS`, `PROVIDERS` and
`PATIENTS` of mock_data.py, made explicit.  Only `slots` is ever mutated
(by `book_appointment`); `providers` and `patients` are read-only. -/
structure SchedState where
  slots : List AppointmentSlot
  providers : List Provider
  patients : List Patient
deriving DecidableEq

/-- Mirrors `get_patient_by_id` of mock_data.py (first match wins). -/
def get_patient_by_id (patients : List Patient) (patient_id : Str) : Option Patient :=
  patients.find? (fun p => decide (p.patient_id = patient_id))

/-- Mirrors `get_provider_by_id` of mock_data.py (first match wins). -/
def get_provider_by_id (providers : List Provider) (provider_id : Str) : Option Provider :=
  providers.find? (fun p => decide (p.provider_id = provider_id))

/-- Mirrors `get_providers_by_specialty` of mock_data.py (exact equality). -/
def get_providers_by_specialty (providers : List Provider) (specialty : Str) : List Provider :=
  providers.filter (fun p => decide (p.specialty = specialty))

/-- Modelled from the spec: the fixed metro-cluster table behind
`get_metro_cities` / `get_metro_area`.  Both functions are imported by
tools.py from `mock_data` but their definitions are missing from the
sources; spec section 4.4 describes "a configured metro-area grouping (a
city maps to a fixed cluster of nearby cities)" and the
`find_nearest_providers` docstring names Dallas, Plano, Arlington, Frisco
as one cluster.  Only the Dallas cluster is exercised by the claims. -/
def METRO_AREAS : List (Str × List Str) :=
  [("Dallas-Fort Worth Metroplex".toList,
     ["Dallas".toList, "Plano".toList, "Arlington".toList, "Frisco".toList]),
   ("Central Texas".toList,
     ["Temple".toList, "Round Rock".toList, "Austin".toList])]

/-- Modelled from the spec: the name of the metro area containing `city`,
if any (case-insensitive membership). -/
def get_metro_area (city : Str) : Option Str :=
  (METRO_AREAS.find? (fun m => m.2.any (fun c => decide (lowerStr c = lowerStr city)))).map
    (fun m => m.1)

/-- Modelled from the spec: all cities of the metro cluster containing
`city`; a city outside every configured cluster maps to itself alone. -/
def get_metro_cities (city : Str) : List Str :=
  match METRO_AREAS.find? (fun m => m.2.any (fun c => decide (lowerStr c = lowerStr city))) with
  | some m => m.2
  | none => [city]

/-! ## book_appointment (tools.py lines 213-336)

The booking handler is split into its pure validation ladder (`bookCheck`,
everything before the mutation on line 294) and the single mutation
(`setUnavailable`, line 294 `slot.is_available = False`); `book_appointment`
composes the two.  The split mirrors the source's read-check-then-mutate
structure and is reused by the interleaving model of the concurrency claim. -/

/-- The appointment details echoed on a successful booking.  Denormalized
copies of provider/patient display fields (names, specialty, address, city,
phone, duration, location, insurance) are elided. -/
structure AppointmentDetails where
  slot_id : Str
  patient_id : Str
  provider_id : Str
  date : Str
  time : Str
  appointment_type : Str
  reason_for_visit : Str
  notes : Option Str
deriving DecidableEq

/-- The possible results of `book_appointment`: the error taxonomy of the
spec plus the success record. -/
inductive BookOutcome where
  | slotNotFound (slot_id : Str)
  | alreadyBooked (slot_id date time : Str)
  | patientNotFound (patient_id : Str)
  | providerNotFound (provider_id : Str)
  | insuranceMismatch (patient_insurance : Str)
  | notAcceptingNewPatients (provider_id last_name : Str)
  | booked (details : AppointmentDetails)
deriving DecidableEq

/-- The `success` boolean of the result dictionary. -/
def BookOutcome.success : BookOutcome → Bool
  | booked _ => true
  | _ => false

/-- ASCII apostrophe, written by code point so the embedded message strings
below can reproduce the source literals. -/
def apos : Char := Char.ofNat 39

/-- The `error` field of the result dictionary, reproducing the source
message strings. -/
def BookOutcome.errorMessage : BookOutcome → Option Str
  | slotNotFound sid =>
      some ("Appointment slot ".toList ++ [apos] ++ sid ++ [apos] ++ " not found".toList)
  | alreadyBooked _ _ _ => some "This appointment slot is no longer available".toList
  | patientNotFound pid =>
      some ("Patient with ID ".toList ++ [apos] ++ pid ++ [apos] ++ " not found".toList)
  | providerNotFound _ => some "Provider for this slot not found".toList
  | insuranceMismatch ins =>
      some ("Provider does not accept patient".toList ++ [apos] ++ "s insurance: ".toList ++ ins)
  | notAcceptingNewPatients _ ln =>
      some ("Dr. ".toList ++ ln ++ " is not currently accepting new patients".toList)
  | booked _ => none

/-- Mirrors tools.py lines 233-291: the validation ladder of
`book_appointment`, i.e. everything the handler does before the mutation. -/
def bookCheck (st : SchedState) (slot_id patient_id : Str) :
    Except BookOutcome (AppointmentSlot × Patient × Provider) :=
  match st.slots.find? (fun s => decide (s.slot_id = slot_id)) with
  | none => .error (.slotNotFound slot_id)
  | some slot =>
    if slot.is_available = false then
      .error (.alreadyBooked slot_id slot.date slot.time)
    else
      match get_patient_by_id st.patients patient_id with
      | none => .error (.patientNotFound patient_id)
      | some patient =>
        match get_provider_by_id st.providers slot.provider_id with
        | none => .error (.providerNotFound slot.provider_id)
        | some provider =>
          if patient.insurance_provider ∉ provider.insurance_accepted then
            .error (.insuranceMismatch patient.insurance_provider)
          else if slot.appointment_type = "New Patient".toList ∧
                  provider.accepting_new_patients = false then
            .error (.notAcceptingNewPatients provider.provider_id provider.last_name)
          else
            .ok (slot, patient, provider)

/-- Mirrors tools.py line 294 `slot.is_available = False`: the first slot
with the given id (the one the handler's scan found) is marked booked. -/
def setUnavailable : List AppointmentSlot → Str → List AppointmentSlot
  | [], _ => []
  | s :: rest, sid =>
    if s.slot_id = sid then { s with is_available := false } :: rest
    else s :: setUnavailable rest sid

/-- Mirrors tools.py `book_appointment`: validation ladder, then the
atomic-in-the-embedding mutation and the confirmation record. -/
def book_appointment (st : SchedState) (slot_id patient_id reason_for_visit : Str)
    (notes : Option Str) : BookOutcome × SchedState :=
  match bookCheck st slot_id patient_id with
  | .error e => (e, st)
  | .ok (slot, _patient, provider) =>
    (.booked
       { slot_id := slot_id
         patient_id := patient_id
         provider_id := provider.provider_id
         date := slot.date
         time := slot.time
         appointment_type := slot.appointment_type
         reason_for_visit := reason_for_visit
         notes := notes },
     { st with slots := setUnavailable st.slots slot_id })

/-! ## Booking invariants (claim C1) -/

/-- One queued `book_appointment` invocation (arguments only). -/
structure BookCall where
  slot_id : Str
  patient_id : Str
  reason_for_visit : Str
  notes : Option Str

/-- Sequential execution of a list of booking calls against the store. -/
def applyCalls (st : SchedState) : List BookCall → SchedState
  | [] => st
  | c :: rest =>
    applyCalls (book_appointment st c.slot_id c.patient_id c.reason_for_visit c.notes).2 rest

theorem setUnavailable_ids (slots : List AppointmentSlot) (sid : Str) :
    (setUnavailable slots sid).map (fun s => s.slot_id) = slots.map (fun s => s.slot_id) := by
  induction slots with
  | nil => rfl
  | cons s rest ih =>
    by_cases h : s.slot_id = sid
    · simp [setUnavailable, h]
    · simp [setUnavailable, h, ih]

theorem mem_setUnavailable {slots : List AppointmentSlot} {sid : Str} {t : AppointmentSlot}
    (ht : t ∈ setUnavailable slots sid) :
    t ∈ slots ∨ ∃ s ∈ slots, t = { s with is_available := false } := by
  induction slots with
  | nil => simp [setUnavailable] at ht
  | cons s rest ih =>
    by_cases h : s.slot_id = sid
    · simp only [setUnavailable, if_pos h, List.mem_cons] at ht
      rcases ht with rfl | ht
      · right; exact ⟨s, List.mem_cons_self s rest, rfl⟩
      · left; exact List.mem_cons_of_mem s ht
    · simp only [setUnavailable, if_neg h, List.mem_cons] at ht
      rcases ht with rfl | ht
      · left; exact List.mem_cons_self t rest
      · rcases ih ht with h1 | ⟨u, hu, rfl⟩
        · left; exact List.mem_cons_of_mem s h1
        · right; exact ⟨u, List.mem_cons_of_mem s hu, rfl⟩

/-- Every slot bearing the booked id is unavailable in the store. -/
def allUnavailable (st : SchedState) (sid : Str) : Prop :=
  ∀ s ∈ st.slots, s.slot_id = sid → s.is_available = false

/-- Some slot bearing the id is present in the store. -/
def idPresent (st : SchedState) (sid : Str) : Prop :=
  sid ∈ st.slots.map (fun s => s.slot_id)

theorem setUnavailable_keeps_allUnavailable {slots : List AppointmentSlot} {sid sid2 : Str}
    (h : ∀ s ∈ slots, s.slot_id = sid → s.is_available = false) :
    ∀ t ∈ setUnavailable slots sid2, t.slot_id = sid → t.is_available = false := by
  intro t ht hid
  rcases mem_setUnavailable ht with h1 | ⟨s, _, rfl⟩
  · exact h t h1 hid
  · rfl

theorem book_keeps_allUnavailable {st : SchedState} {sid : Str}
    (h : allUnavailable st sid) (a b c : Str) (n : Option Str) :
    allUnavailable (book_appointment st a b c n).2 sid := by
  unfold book_appointment
  cases hc : bookCheck st a b with
  | error e => exact h
  | ok v =>
    obtain ⟨slot, patient, provider⟩ := v
    intro t ht hid
    exact setUnavailable_keeps_allUnavailable h t ht hid

theorem book_keeps_idPresent {st : SchedState} {sid : Str}
    (h : idPresent st sid) (a b c : Str) (n : Option Str) :
    idPresent (book_appointment st a b c n).2 sid := by
  unfold book_appointment
  cases hc : bookCheck st a b with
  | error e => exact h
  | ok v =>
    obtain ⟨slot, patient, provider⟩ := v
    show sid ∈ (setUnavailable st.slots a).map (fun s => s.slot_id)
    rw [setUnavailable_ids]
    exact h

theorem applyCalls_keeps_allUnavailable {st : SchedState} {sid : Str}
    (h : allUnavailable st sid) (calls : List BookCall) :
    allUnavailable (applyCalls st calls) sid := by
  induction calls generalizing st with
  | nil => exact h
  | cons c rest ih =>
    exact ih (book_keeps_allUnavailable h c.slot_id c.patient_id c.reason_for_visit c.notes)

theorem applyCalls_keeps_idPresent {st : SchedState} {sid : Str}
    (h : idPresent st sid) (calls : List BookCall) :
    idPresent (applyCalls st calls) sid := by
  induction calls generalizing st with
  | nil => exact h
  | cons c rest ih =>
    exact ih (book_keeps_idPresent h c.slot_id c.patient_id c.reason_for_visit c.notes)

theorem setUnavailable_all {slots : List AppointmentSlot} {sid : Str}
    (hnd : (slots.map (fun s => s.slot_id)).Nodup) :
    ∀ t ∈ setUnavailable slots sid, t.slot_id = sid → t.is_available = false := by
  induction slots with
  | nil => intro t ht; simp [setUnavailable] at ht
  | cons s rest ih =>
    rw [List.map_cons, List.nodup_cons] at hnd
    intro t ht hid
    by_cases h : s.slot_id = sid
    · simp only [setUnavailable, if_pos h, List.mem_cons] at ht
      rcases ht with rfl | ht
      · rfl
      · exfalso
        apply hnd.1
        rw [h, ← hid]
        exact List.mem_map_of_mem (fun u => u.slot_id) ht
    · simp only [setUnavailable, if_neg h, List.mem_cons] at ht
      rcases ht with rfl | ht
      · exact absurd hid h
      · exact ih hnd.2 t ht hid

/-- `book_appointment` against a store where every slot bearing the id is
unavailable (and some slot bears it) answers exactly the already-booked
failure of tools.py lines 247-254. -/
theorem book_on_unavailable {st : SchedState} {sid : Str}
    (hp : idPresent st sid) (hu : allUnavailable st sid)
    (pid reason : Str) (notes : Option Str) :
    ∃ dt tm, (book_appointment st sid pid reason notes).1 = .alreadyBooked sid dt tm := by
  rcases hfind : st.slots.find? (fun s => decide (s.slot_id = sid)) with _ | slot
  · exfalso
    rw [List.find?_eq_none] at hfind
    rcases List.mem_map.mp hp with ⟨s, hs, hsid⟩
    exact hfind s hs (by simpa using hsid)
  · have hsid : slot.slot_id = sid := by
      have := List.find?_some hfind
      simpa using this
    have hmem : slot ∈ st.slots := List.mem_of_find?_eq_some hfind
    have hav : slot.is_available = false := hu slot hmem hsid
    refine ⟨slot.date, slot.time, ?_⟩
    unfold book_appointment bookCheck
    rw [hfind]
    simp [hav]

theorem bookCheck_error_no_success {st : SchedState} {a b : Str} {e : BookOutcome}
    (h : bookCheck st a b = Except.error e) : e.success = false := by
  unfold bookCheck at h
  rcases hf : st.slots.find? (fun s => decide (s.slot_id = a)) with _ | slot
  · rw [hf] at h; simp only [] at h; cases h; rfl
  · rw [hf] at h; simp only [] at h
    by_cases hav : slot.is_available = false
    · rw [if_pos hav] at h; cases h; rfl
    · rw [if_neg hav] at h
      rcases hp : get_patient_by_id st.patients b with _ | patient
      · rw [hp] at h; simp only [] at h; cases h; rfl
      · rw [hp] at h; simp only [] at h
        rcases hq : get_provider_by_id st.providers slot.provider_id with _ | provider
        · rw [hq] at h; simp only [] at h; cases h; rfl
        · rw [hq] at h; simp only [] at h
          by_cases hins : patient.insurance_provider ∉ provider.insurance_accepted
          · rw [if_pos hins] at h; cases h; rfl
          · rw [if_neg hins] at h
            by_cases hnp : slot.appointment_type = "New Patient".toList ∧
                provider.accepting_new_patients = false
            · rw [if_pos hnp] at h; cases h; rfl
            · rw [if_neg hnp] at h; cases h

theorem bookCheck_ok_inv {st : SchedState} {a b : Str} {slot : AppointmentSlot}
    {patient : Patient} {provider : Provider}
    (h : bookCheck st a b = Except.ok (slot, patient, provider)) :
    st.slots.find? (fun s => decide (s.slot_id = a)) = some slot ∧
      slot.is_available = true := by
  unfold bookCheck at h
  rcases hf : st.slots.find? (fun s => decide (s.slot_id = a)) with _ | slot2
  · rw [hf] at h; simp only [] at h; cases h
  · rw [hf] at h; simp only [] at h
    by_cases hav : slot2.is_available = false
    · rw [if_pos hav] at h; cases h
    · rw [if_neg hav] at h
      rcases hp : get_patient_by_id st.patients b with _ | patient2
      · rw [hp] at h; simp only [] at h; cases h
      · rw [hp] at h; simp only [] at h
        rcases hq : get_provider_by_id st.providers slot2.provider_id with _ | provider2
        · rw [hq] at h; simp only [] at h; cases h
        · rw [hq] at h; simp only [] at h
          by_cases hins : patient2.insurance_provider ∉ provider2.insurance_accepted
          · rw [if_pos hins] at h; cases h
          · rw [if_neg hins] at h
            by_cases hnp : slot2.appointment_type = "New Patient".toList ∧
                provider2.accepting_new_patients = false
            · rw [if_pos hnp] at h; cases h
            · rw [if_neg hnp] at h
              cases h
              refine ⟨hf, ?_⟩
              cases hsa : slot.is_available with
              | false => exact absurd hsa hav
              | true => rfl

theorem book_success_allUnavailable {st : SchedState} {sid pid reason : Str}
    {notes : Option Str} {d : AppointmentDetails}
    (hnd : (st.slots.map (fun s => s.slot_id)).Nodup)
    (hs : (book_appointment st sid pid reason notes).1 = .booked d) :
    allUnavailable (book_appointment st sid pid reason notes).2 sid ∧
      idPresent (book_appointment st sid pid reason notes).2 sid := by
  have hex : ∃ slot patient provider,
      bookCheck st sid pid = Except.ok (slot, patient, provider) := by
    unfold book_appointment at hs
    cases hc : bookCheck st sid pid with
    | error e =>
      rw [hc] at hs
      simp only at hs
      have hfail := bookCheck_error_no_success hc
      rw [hs] at hfail
      simp [BookOutcome.success] at hfail
    | ok v =>
      exact ⟨v.1, v.2.1, v.2.2, rfl⟩
  obtain ⟨slot, patient, provider, hok⟩ := hex
  obtain ⟨hf, hav⟩ := bookCheck_ok_inv hok
  have hstate : (book_appointment st sid pid reason notes).2 =
      { st with slots := setUnavailable st.slots sid } := by
    unfold book_appointment
    rw [hok]
  rw [hstate]
  constructor
  · intro t ht hid
    exact setUnavailable_all hnd t ht hid
  · show sid ∈ (setUnavailable st.slots sid).map (fun s => s.slot_id)
    rw [setUnavailable_ids]
    have hsid : slot.slot_id = sid := by simpa using List.find?_some hf
    rw [← hsid]
    exact List.mem_map_of_mem (fun s => s.slot_id) (List.mem_of_find?_eq_some hf)

/-! ## Concrete fixtures (entries of mock_data.py, used by witnesses and
counterexamples; slots are representatives of `generate_appointment_slots`
output) -/

/-- Provider DR001 of mock_data.py. -/
def DR001 : Provider :=
  { provider_id := "DR001".toList
    first_name := "David".toList
    last_name := "Anderson".toList
    specialty := "Orthopedic Surgery".toList
    sub_specialty := "Joint Replacement".toList
    city := "Dallas".toList
    location := "BSW Medical Center - Dallas".toList
    phone := "214-820-0111".toList
    accepting_new_patients := true
    insurance_accepted :=
      ["Blue Cross Blue Shield".toList, "Aetna".toList, "United Healthcare".toList,
       "Medicare".toList, "Medicaid".toList] }

/-- Provider DR003 of mock_data.py: not accepting new patients. -/
def DR003 : Provider :=
  { provider_id := "DR003".toList
    first_name := "Robert".toList
    last_name := "Martinez".toList
    specialty := "Orthopedic Surgery".toList
    sub_specialty := "Joint Replacement".toList
    city := "Plano".toList
    location := "BSW Medical Center - Plano".toList
    phone := "469-814-4000".toList
    accepting_new_patients := false
    insurance_accepted :=
      ["Blue Cross Blue Shield".toList, "United Healthcare".toList, "Medicare".toList] }

/-- Patient PT001 of mock_data.py (visit date abstracted to day 0). -/
def PT001 : Patient :=
  { patient_id := "PT001".toList
    first_name := "Sarah".toList
    last_name := "Martinez".toList
    insurance_provider := "Blue Cross Blue Shield".toList
    primary_care_provider := some "DR006".toList
    recent_visits :=
      [{ dateDay := 0
         provider := "DR003".toList
         specialty := "Orthopedic Surgery".toList
         notes := "Post-op follow-up needed in 2 weeks".toList }] }

/-- A representative available DR001 slot. -/
def slotDR001a : AppointmentSlot :=
  { slot_id := "SLOT-DR001-0001".toList
    provider_id := "DR001".toList
    date := "2024-10-21".toList
    time := "08:00".toList
    duration := 30
    appointment_type := "Post-Operative Follow-up".toList
    is_available := true
    location := "BSW Medical Center - Dallas".toList }

/-- Store fixture for the booking claims. -/
def stC1 : SchedState :=
  { slots := [slotDR001a], providers := [DR001], patients := [PT001] }

/-- The confirmation details of booking `slotDR001a` for PT001. -/
def dC1 : AppointmentDetails :=
  { slot_id := "SLOT-DR001-0001".toList
    patient_id := "PT001".toList
    provider_id := "DR001".toList
    date := "2024-10-21".toList
    time := "08:00".toList
    appointment_type := "Post-Operative Follow-up".toList
    reason_for_visit := "knee follow-up".toList
    notes := none }

/-- Claim C1: after `book_appointment` succeeds on a slot id, every
subsequent `book_appointment` call on the same id — with arbitrary further
bookings in between — fails with the already-booked error "This appointment
slot is no longer available"; equivalently, once every slot bearing the id
has `is_available = false`, no booking against that id ever succeeds. -/
theorem book_appointment_exactly_once :
    (∀ (st : SchedState) (sid pid reason : Str) (notes : Option Str) (d : AppointmentDetails),
      (st.slots.map (fun s => s.slot_id)).Nodup →
      (book_appointment st sid pid reason notes).1 = .booked d →
      ∀ (calls : List BookCall) (pid2 reason2 : Str) (notes2 : Option Str),
        ∃ dt tm,
          (book_appointment (applyCalls (book_appointment st sid pid reason notes).2 calls)
              sid pid2 reason2 notes2).1 = .alreadyBooked sid dt tm ∧
          ((book_appointment (applyCalls (book_appointment st sid pid reason notes).2 calls)
              sid pid2 reason2 notes2).1).errorMessage =
            some "This appointment slot is no longer available".toList) ∧
    (∀ (st : SchedState) (sid : Str),
      allUnavailable st sid →
      ∀ (calls : List BookCall) (pid reason : Str) (notes : Option Str),
        ((book_appointment (applyCalls st calls) sid pid reason notes).1).success = false) := by
  constructor
  · intro st sid pid reason notes d hnd hsucc calls pid2 reason2 notes2
    obtain ⟨hu, hp⟩ := book_success_allUnavailable hnd hsucc
    have hu2 := applyCalls_keeps_allUnavailable hu calls
    have hp2 := applyCalls_keeps_idPresent hp calls
    obtain ⟨dt, tm, heq⟩ := book_on_unavailable hp2 hu2 pid2 reason2 notes2
    refine ⟨dt, tm, heq, ?_⟩
    rw [heq]
    rfl
  · intro st sid hu calls pid reason notes
    have hu2 := applyCalls_keeps_allUnavailable hu calls
    rcases hf : (applyCalls st calls).slots.find? (fun s => decide (s.slot_id = sid)) with _ | slot
    · simp [book_appointment, bookCheck, hf, BookOutcome.success]
    · have hsid : slot.slot_id = sid := by simpa using List.find?_some hf
      have hmem := List.mem_of_find?_eq_some hf
      have hav : slot.is_available = false := hu2 slot hmem hsid
      simp [book_appointment, bookCheck, hf, hav, BookOutcome.success]

/-- Witness for claim C1 at the concrete fixture store. -/
theorem book_appointment_exactly_once_witness :
    ((book_appointment (applyCalls (book_appointment stC1 ("SLOT-DR001-0001".toList)
        ("PT001".toList) ("knee follow-up".toList) none).2 [])
        ("SLOT-DR001-0001".toList) ("PT001".toList) ("knee follow-up".toList) none).1).errorMessage =
      some "This appointment slot is no longer available".toList := by
  obtain ⟨dt, tm, heq, hmsg⟩ :=
    book_appointment_exactly_once.1 stC1 ("SLOT-DR001-0001".toList) ("PT001".toList)
      ("knee follow-up".toList) none dC1 (by decide) (by decide) [] ("PT001".toList)
      ("knee follow-up".toList) none
  exact hmsg

/-! ## Interleaving model of concurrent booking (claim C2)

tools.py holds no lock: the availability check (line 247) and the mutation
(line 294) of `book_appointment` are separate interpreter steps, and under
CPython threading another session may run between them.  A racing session is
modelled as a thread that performs the handler's read-and-validate ladder
(`bookCheck`) in one atomic step and the write (`setUnavailable`) in a
second atomic step; a schedule interleaves the two threads' steps. -/

/-- Control point of one in-flight `book_appointment` invocation. -/
inductive RacePhase where
  | start
  | pendingWrite (slot : AppointmentSlot) (patient : Patient) (provider : Provider)
  | finished (result : BookOutcome)
deriving DecidableEq

/-- One session racing to book: its arguments and its control point. -/
structure RaceThread where
  slot_id : Str
  patient_id : Str
  reason_for_visit : Str
  notes : Option Str
  phase : RacePhase
deriving DecidableEq

/-- The returned value of a thread, once it has finished. -/
def RaceThread.result (t : RaceThread) : Option BookOutcome :=
  match t.phase with
  | .finished r => some r
  | _ => none

/-- One interpreter step of a racing `book_appointment` invocation:
read-and-validate (tools.py lines 233-291), then write (line 294). -/
def raceStep (st : SchedState) (t : RaceThread) : SchedState × RaceThread :=
  match t.phase with
  | .start =>
    match bookCheck st t.slot_id t.patient_id with
    | .error e => (st, { t with phase := .finished e })
    | .ok (slot, patient, provider) =>
      (st, { t with phase := .pendingWrite slot patient provider })
  | .pendingWrite slot _patient provider =>
    ({ st with slots := setUnavailable st.slots t.slot_id },
     { t with phase := .finished (.booked
        { slot_id := t.slot_id
          patient_id := t.patient_id
          provider_id := provider.provider_id
          date := slot.date
          time := slot.time
          appointment_type := slot.appointment_type
          reason_for_visit := t.reason_for_visit
          notes := t.notes }) })
  | .finished _ => (st, t)

/-- Run a schedule: `true` steps thread 1, `false` steps thread 2. -/
def runRace (st : SchedState) (t1 t2 : RaceThread) :
    List Bool → SchedState × RaceThread × RaceThread
  | [] => (st, t1, t2)
  | b :: rest =>
    if b then
      let step := raceStep st t1
      runRace step.1 step.2 t2 rest
    else
      let step := raceStep st t2
      runRace step.1 t1 step.2 rest

/-- Session 1 of the race fixture: books the single available slot for PT001. -/
def raceT1 : RaceThread :=
  { slot_id := "SLOT-DR001-0001".toList
    patient_id := "PT001".toList
    reason_for_visit := "knee follow-up".toList
    notes := none
    phase := .start }

/-- Session 2 of the race fixture: races session 1 for the same slot id. -/
def raceT2 : RaceThread :=
  { slot_id := "SLOT-DR001-0001".toList
    patient_id := "PT001".toList
    reason_for_visit := "second opinion".toList
    notes := none
    phase := .start }

/-- Claim C2 (refuting the serialization the spec requires): under the
interleaving in which both sessions pass the availability check before
either reaches the mutation, BOTH `book_appointment` calls return
`success=true` on the same slot id — a double booking, not
exactly-one-success. -/
theorem book_appointment_race_double_success :
    ((runRace stC1 raceT1 raceT2 [true, false, true, false]).2.1.result.map
        BookOutcome.success = some true) ∧
    ((runRace stC1 raceT1 raceT2 [true, false, true, false]).2.2.result.map
        BookOutcome.success = some true) := by
  decide

/-- For contrast: when the two sessions are serialized (each runs its
read-check-then-mutate sequence to completion before the other starts),
exactly one succeeds and the other observes the already-booked failure —
the behavior the spec demands of every interleaving. -/
theorem book_appointment_race_serialized :
    ((runRace stC1 raceT1 raceT2 [true, true, false, false]).2.1.result.map
        BookOutcome.success = some true) ∧
    ((runRace stC1 raceT1 raceT2 [true, true, false, false]).2.2.result =
      some (.alreadyBooked ("SLOT-DR001-0001".toList) ("2024-10-21".toList)
        ("08:00".toList))) := by
  decide

/-! ## book_appointment error taxonomy (claim C3) -/

/-- Patient PT003 of mock_data.py (Aetna; not accepted by DR003). -/
def PT003 : Patient :=
  { patient_id := "PT003".toList
    first_name := "Lisa".toList
    last_name := "Chen".toList
    insurance_provider := "Aetna".toList
    primary_care_provider := some "DR009".toList
    recent_visits :=
      [{ dateDay := 0
         provider := "DR009".toList
         specialty := "Primary Care".toList
         notes := "Healthy, routine follow-up in 1 year".toList }] }

/-- A representative DR003 slot of type "New Patient Consultation" (one of
the orthopedic types generate_appointment_slots draws from). -/
def slotNewPatC : AppointmentSlot :=
  { slot_id := "SLOT-DR003-0002".toList
    provider_id := "DR003".toList
    date := "2024-10-22".toList
    time := "09:00".toList
    duration := 30
    appointment_type := "New Patient Consultation".toList
    is_available := true
    location := "BSW Medical Center - Plano".toList }

/-- Store fixture for the new-patient-check counterexample: DR003 is not
accepting new patients, PT001's carrier is in DR003's accepted list. -/
def stC3 : SchedState :=
  { slots := [slotNewPatC], providers := [DR003], patients := [PT001, PT003] }

/-- Counterexample to claim C3 as stated: the slot's appointment type is a
new-patient type ("New Patient Consultation", the type
generate_appointment_slots actually emits) and the provider is not
accepting new patients, yet `book_appointment` succeeds — tools.py line 285
compares the type against the exact string "New Patient" only, so the
guard never fires on generated slots. -/
theorem book_appointment_new_patient_check_counterexample :
    ((book_appointment stC3 ("SLOT-DR003-0002".toList) ("PT001".toList)
        ("establish care".toList) none).1).success = true ∧
    slotNewPatC.appointment_type = "New Patient Consultation".toList ∧
    substrOf ("New Patient".toList) slotNewPatC.appointment_type = true ∧
    DR003.accepting_new_patients = false := by
  decide

/-- Claim C3 (amended): the failure ladder of `book_appointment` in source
order — unknown slot id, then already-booked, then unknown patient id, then
unknown provider, then insurance mismatch, then the not-accepting-new-
patients check, which fires only when the appointment type is exactly the
string "New Patient"; and every failing call leaves the store (in
particular the slot's availability flag) unchanged. -/
theorem book_appointment_error_cases :
    ∀ (st : SchedState) (sid pid reason : Str) (notes : Option Str),
      (st.slots.find? (fun s => decide (s.slot_id = sid)) = none →
        (book_appointment st sid pid reason notes).1 = .slotNotFound sid) ∧
      (∀ slot, st.slots.find? (fun s => decide (s.slot_id = sid)) = some slot →
        slot.is_available = false →
        (book_appointment st sid pid reason notes).1 = .alreadyBooked sid slot.date slot.time) ∧
      (∀ slot, st.slots.find? (fun s => decide (s.slot_id = sid)) = some slot →
        slot.is_available = true →
        get_patient_by_id st.patients pid = none →
        (book_appointment st sid pid reason notes).1 = .patientNotFound pid) ∧
      (∀ slot patient, st.slots.find? (fun s => decide (s.slot_id = sid)) = some slot →
        slot.is_available = true →
        get_patient_by_id st.patients pid = some patient →
        get_provider_by_id st.providers slot.provider_id = none →
        (book_appointment st sid pid reason notes).1 = .providerNotFound slot.provider_id) ∧
      (∀ slot patient provider,
        st.slots.find? (fun s => decide (s.slot_id = sid)) = some slot →
        slot.is_available = true →
        get_patient_by_id st.patients pid = some patient →
        get_provider_by_id st.providers slot.provider_id = some provider →
        patient.insurance_provider ∉ provider.insurance_accepted →
        (book_appointment st sid pid reason notes).1 =
          .insuranceMismatch patient.insurance_provider) ∧
      (∀ slot patient provider,
        st.slots.find? (fun s => decide (s.slot_id = sid)) = some slot →
        slot.is_available = true →
        get_patient_by_id st.patients pid = some patient →
        get_provider_by_id st.providers slot.provider_id = some provider →
        patient.insurance_provider ∈ provider.insurance_accepted →
        slot.appointment_type = "New Patient".toList →
        provider.accepting_new_patients = false →
        (book_appointment st sid pid reason notes).1 =
          .notAcceptingNewPatients provider.provider_id provider.last_name) ∧
      (((book_appointment st sid pid reason notes).1).success = false →
        (book_appointment st sid pid reason notes).2 = st) := by
  intro st sid pid reason notes
  refine ⟨?_, ?_, ?_, ?_, ?_, ?_, ?_⟩
  · intro hf
    simp [book_appointment, bookCheck, hf]
  · intro slot hf hav
    simp [book_appointment, bookCheck, hf, hav]
  · intro slot hf hav hp
    simp [book_appointment, bookCheck, hf, hav, hp]
  · intro slot patient hf hav hp hq
    simp [book_appointment, bookCheck, hf, hav, hp, hq]
  · intro slot patient provider hf hav hp hq hins
    simp [book_appointment, bookCheck, hf, hav, hp, hq, hins]
  · intro slot patient provider hf hav hp hq hins hty hacc
    simp [book_appointment, bookCheck, hf, hav, hp, hq, hins, hty, hacc]
  · intro hfail
    unfold book_appointment at hfail ⊢
    cases hc : bookCheck st sid pid with
    | error e => rfl
    | ok v =>
      rw [hc] at hfail
      simp [BookOutcome.success] at hfail

/-- Witness for claim C3: the insurance-mismatch rung at a concrete input
(PT003 carries Aetna, which DR003 does not accept), with the store — and
hence the slot's availability flag — left unchanged. -/
theorem book_appointment_error_cases_witness :
    (book_appointment stC3 ("SLOT-DR003-0002".toList) ("PT003".toList)
        ("hip pain".toList) none).1 = .insuranceMismatch ("Aetna".toList) ∧
    (book_appointment stC3 ("SLOT-DR003-0002".toList) ("PT003".toList)
        ("hip pain".toList) none).2 = stC3 := by
  have h := book_appointment_error_cases stC3 ("SLOT-DR003-0002".toList) ("PT003".toList)
    ("hip pain".toList) none
  have h5 := h.2.2.2.2.1 slotNewPatC PT003 DR003 (by decide) (by decide) (by decide)
    (by decide) (by decide)
  refine ⟨h5, h.2.2.2.2.2.2 ?_⟩
  rw [h5]
  rfl

/-! ## search_appointment_slots (tools.py lines 84-210) -/

/-- Python truthiness of an optional string argument: `if provider_id:` is
false both for `None` and for the empty string. -/
def optStr : Option Str → Option Str
  | some v => if v.isEmpty then none else some v
  | none => none

/-- Mirrors tools.py lines 118-119: ids of the providers with the given
specialty. -/
def specialtyProviderIds (providers : List Provider) (specialty : Str) : List Str :=
  (get_providers_by_specialty providers specialty).map (fun p => p.provider_id)

/-- Mirrors tools.py lines 131-138: ids of the providers whose city lies in
the metro area of the queried location. -/
def locationProviderIds (providers : List Provider) (loc : Str) : List Str :=
  (providers.filter (fun p =>
    (get_metro_cities loc).any (fun c => decide (lowerStr c = lowerStr p.city)))).map
    (fun p => p.provider_id)

/-- Mirrors tools.py lines 141-144: a slot passes the location filter when
its provider sits in the metro area or the location is a substring of the
slot's location string. -/
def locationMatch (providers : List Provider) (loc : Str) (s : AppointmentSlot) : Bool :=
  (locationProviderIds providers loc).contains s.provider_id ||
    substrOf (lowerStr loc) (lowerStr s.location)

/-- Apply one optional filter (skipped for `None`/empty, Python truthiness). -/
def applyOptFilter (o : Option Str) (pred : Str → AppointmentSlot → Bool)
    (l : List AppointmentSlot) : List AppointmentSlot :=
  match optStr o with
  | none => l
  | some v => l.filter (pred v)

/-- Mirrors tools.py lines 146-162: exact case-insensitive appointment-type
match first; if no slot matches exactly, fall back to substring matching. -/
def typeFilter (o : Option Str) (l : List AppointmentSlot) : List AppointmentSlot :=
  match optStr o with
  | none => l
  | some ty =>
    let tl := lowerStr ty
    let exact_matches := l.filter (fun s => decide (lowerStr s.appointment_type = tl))
    if exact_matches.isEmpty then l.filter (fun s => substrOf tl (lowerStr s.appointment_type))
    else exact_matches

/-- The sort key comparison of tools.py line 165: ascending by (date, time). -/
def slotLe (a b : AppointmentSlot) : Bool :=
  if a.date = b.date then strLe a.time b.time else strLe a.date b.date

/-- Stable insertion of a slot in front of the first entry it compares
less-or-equal to. -/
def insertSlot (x : AppointmentSlot) : List AppointmentSlot → List AppointmentSlot
  | [] => [x]
  | y :: ys => if slotLe x y then x :: y :: ys else y :: insertSlot x ys

/-- Stable sort by the (date, time) key of tools.py line 165.  A stable sort
with a total preorder key has a unique output, so this insertion sort
returns exactly what Python's stable `list.sort` returns. -/
def sortSlots : List AppointmentSlot → List AppointmentSlot
  | [] => []
  | x :: xs => insertSlot x (sortSlots xs)

/-- The filter-and-sort pipeline of `search_appointment_slots` before the
`max_results` truncation (tools.py lines 110-165); filters are applied in
source order. -/
def searchFilteredSorted (st : SchedState)
    (provider_id specialty start_date end_date location appointment_type : Option Str) :
    List AppointmentSlot :=
  let available := st.slots.filter (fun s => s.is_available)
  let l1 := applyOptFilter provider_id (fun pid s => decide (s.provider_id = pid)) available
  let l2 := applyOptFilter specialty
    (fun spec s => (specialtyProviderIds st.providers spec).contains s.provider_id) l1
  let l3 := applyOptFilter start_date (fun sd s => strLe sd s.date) l2
  let l4 := applyOptFilter end_date (fun ed s => strLe s.date ed) l3
  let l5 := applyOptFilter location (fun loc s => locationMatch st.providers loc s) l4
  let l6 := typeFilter appointment_type l5
  sortSlots l6

/-- One entry of the result `slots` list (tools.py lines 175-188). -/
structure SlotResult where
  slot_id : Str
  provider_id : Str
  provider_name : Str
  specialty : Str
  sub_specialty : Str
  date : Str
  time : Str
  duration : Nat
  appointment_type : Str
  location : Str
  city : Str
  phone : Str
deriving DecidableEq

/-- Formatting of one slot with its provider's details. -/
def formatSlot (s : AppointmentSlot) (p : Provider) : SlotResult :=
  { slot_id := s.slot_id
    provider_id := s.provider_id
    provider_name := "Dr. ".toList ++ p.first_name ++ " ".toList ++ p.last_name
    specialty := p.specialty
    sub_specialty := p.sub_specialty
    date := s.date
    time := s.time
    duration := s.duration
    appointment_type := s.appointment_type
    location := s.location
    city := p.city
    phone := p.phone }

/-- The result of `search_appointment_slots`; the `filters_applied` echo is
elided.  No exception can arise in the pure translation, so `success` is
always true (tools.py line 191). -/
structure SearchResult where
  success : Bool
  total_results : Nat
  slots : List SlotResult
deriving DecidableEq

/-- Mirrors tools.py `search_appointment_slots`.  `max_results` (default 20
in the source, an `integer` count in the tool schema) is embedded as `Nat`;
slots whose provider id resolves to no provider are skipped during
formatting (lines 172-174). -/
def search_appointment_slots (st : SchedState)
    (provider_id specialty start_date end_date location appointment_type : Option Str)
    (max_results : Nat) : SearchResult :=
  let limited := (searchFilteredSorted st provider_id specialty start_date end_date
    location appointment_type).take max_results
  let results := limited.filterMap
    (fun s => (get_provider_by_id st.providers s.provider_id).map (formatSlot s))
  { success := true, total_results := results.length, slots := results }

theorem mem_applyOptFilter {o : Option Str} {pred : Str → AppointmentSlot → Bool}
    {l : List AppointmentSlot} {x : AppointmentSlot} (h : x ∈ applyOptFilter o pred l) :
    x ∈ l ∧ ∀ v, optStr o = some v → pred v x = true := by
  unfold applyOptFilter at h
  rcases ho : optStr o with _ | v
  · rw [ho] at h
    exact ⟨h, by intro v hv; cases hv⟩
  · rw [ho] at h
    simp only [] at h
    rw [List.mem_filter] at h
    exact ⟨h.1, by intro w hw; cases hw; exact h.2⟩

theorem mem_typeFilter {o : Option Str} {l : List AppointmentSlot} {x : AppointmentSlot}
    (h : x ∈ typeFilter o l) :
    x ∈ l ∧ ∀ ty, optStr o = some ty →
      substrOf (lowerStr ty) (lowerStr x.appointment_type) = true := by
  unfold typeFilter at h
  rcases ho : optStr o with _ | ty
  · rw [ho] at h
    exact ⟨h, by intro v hv; cases hv⟩
  · rw [ho] at h
    simp only [] at h
    split at h
    · rw [List.mem_filter] at h
      exact ⟨h.1, by intro w hw; cases hw; exact h.2⟩
    · rw [List.mem_filter] at h
      refine ⟨h.1, ?_⟩
      intro w hw
      cases hw
      have hx : lowerStr x.appointment_type = lowerStr ty := by simpa using h.2
      rw [hx]
      exact substrOf_self (lowerStr ty)

theorem slotLe_total_pair (a b : AppointmentSlot) : (slotLe a b || slotLe b a) = true := by
  unfold slotLe
  by_cases hd : a.date = b.date
  · rw [if_pos hd, if_pos hd.symm]
    rcases strLe_total a.time b.time with h | h <;> simp [h]
  · rw [if_neg hd, if_neg (fun h => hd h.symm)]
    rcases strLe_total a.date b.date with h | h <;> simp [h]

theorem slotLe_trans_pair (a b c : AppointmentSlot) (hab : slotLe a b = true)
    (hbc : slotLe b c = true) : slotLe a c = true := by
  unfold slotLe at hab hbc ⊢
  by_cases hd1 : a.date = b.date
  · by_cases hd2 : b.date = c.date
    · rw [if_pos hd1] at hab
      rw [if_pos hd2] at hbc
      rw [if_pos (hd1.trans hd2)]
      exact strLe_trans hab hbc
    · rw [if_neg hd2] at hbc
      rw [if_neg (fun h => hd2 (hd1 ▸ h)), hd1]
      exact hbc
  · by_cases hd2 : b.date = c.date
    · rw [if_neg hd1] at hab
      rw [if_neg (fun h => hd1 (hd2 ▸ h)), ← hd2]
      exact hab
    · rw [if_neg hd1] at hab
      rw [if_neg hd2] at hbc
      by_cases hd3 : a.date = c.date
      · exfalso
        exact hd1 (strLe_antisymm hab (hd3 ▸ hbc))
      · rw [if_neg hd3]
        exact strLe_trans hab hbc

theorem mem_insertSlot {x a : AppointmentSlot} {l : List AppointmentSlot} :
    a ∈ insertSlot x l ↔ a = x ∨ a ∈ l := by
  induction l with
  | nil => simp [insertSlot]
  | cons y ys ih =>
    unfold insertSlot
    by_cases h : slotLe x y = true
    · simp [h]
    · simp only [if_neg h, List.mem_cons, ih]
      tauto

theorem mem_sortSlots {a : AppointmentSlot} {l : List AppointmentSlot} :
    a ∈ sortSlots l ↔ a ∈ l := by
  induction l with
  | nil => simp [sortSlots]
  | cons x xs ih =>
    unfold sortSlots
    rw [mem_insertSlot, ih, List.mem_cons]

theorem pairwise_insertSlot {x : AppointmentSlot} {l : List AppointmentSlot}
    (h : List.Pairwise (fun a b => slotLe a b = true) l) :
    List.Pairwise (fun a b => slotLe a b = true) (insertSlot x l) := by
  induction l with
  | nil => simp [insertSlot]
  | cons y ys ih =>
    rw [List.pairwise_cons] at h
    unfold insertSlot
    by_cases hxy : slotLe x y = true
    · rw [if_pos hxy, List.pairwise_cons]
      refine ⟨?_, List.pairwise_cons.mpr h⟩
      intro b hb
      rcases List.mem_cons.mp hb with rfl | hb2
      · exact hxy
      · exact slotLe_trans_pair x y b hxy (h.1 b hb2)
    · rw [if_neg hxy, List.pairwise_cons]
      have hyx : slotLe y x = true := by
        rcases Bool.or_eq_true_iff.mp (slotLe_total_pair x y) with h1 | h1
        · exact absurd h1 hxy
        · exact h1
      refine ⟨?_, ih h.2⟩
      intro b hb
      rcases mem_insertSlot.mp hb with rfl | hb2
      · exact hyx
      · exact h.1 b hb2

theorem pairwise_sortSlots (l : List AppointmentSlot) :
    List.Pairwise (fun a b => slotLe a b = true) (sortSlots l) := by
  induction l with
  | nil => simp [sortSlots]
  | cons x xs ih => exact pairwise_insertSlot ih

/-- A slot satisfies every filter that was actually supplied to the search
(Python truthiness: `None` and `""` mean "not supplied"). -/
def FilterOk (st : SchedState)
    (provider_id specialty start_date end_date location appointment_type : Option Str)
    (s : AppointmentSlot) : Prop :=
  s.is_available = true ∧
  (∀ pid, optStr provider_id = some pid → s.provider_id = pid) ∧
  (∀ spec, optStr specialty = some spec →
    (specialtyProviderIds st.providers spec).contains s.provider_id = true) ∧
  (∀ sd, optStr start_date = some sd → strLe sd s.date = true) ∧
  (∀ ed, optStr end_date = some ed → strLe s.date ed = true) ∧
  (∀ loc, optStr location = some loc → locationMatch st.providers loc s = true) ∧
  (∀ ty, optStr appointment_type = some ty →
    substrOf (lowerStr ty) (lowerStr s.appointment_type) = true)

theorem mem_searchFilteredSorted {st : SchedState}
    {provider_id specialty start_date end_date location appointment_type : Option Str}
    {s : AppointmentSlot}
    (h : s ∈ searchFilteredSorted st provider_id specialty start_date end_date location
      appointment_type) :
    s ∈ st.slots ∧
      FilterOk st provider_id specialty start_date end_date location appointment_type s := by
  unfold searchFilteredSorted at h
  rw [mem_sortSlots] at h
  obtain ⟨h5, hty⟩ := mem_typeFilter h
  obtain ⟨h4, hloc⟩ := mem_applyOptFilter h5
  obtain ⟨h3, hed⟩ := mem_applyOptFilter h4
  obtain ⟨h2, hsd⟩ := mem_applyOptFilter h3
  obtain ⟨h1, hspec⟩ := mem_applyOptFilter h2
  obtain ⟨h0, hpid⟩ := mem_applyOptFilter h1
  rw [List.mem_filter] at h0
  refine ⟨h0.1, h0.2, ?_, hspec, hsd, hed, hloc, hty⟩
  intro pid hp
  have := hpid pid hp
  simpa using this

theorem searchFilteredSorted_pairwise (st : SchedState)
    (provider_id specialty start_date end_date location appointment_type : Option Str) :
    List.Pairwise (fun a b => slotLe a b = true)
      (searchFilteredSorted st provider_id specialty start_date end_date location
        appointment_type) := by
  unfold searchFilteredSorted
  exact pairwise_sortSlots _

/-- A returned record comes from some stored, available slot satisfying
every supplied filter, formatted with its provider's details. -/
def ResultOk (st : SchedState)
    (provider_id specialty start_date end_date location appointment_type : Option Str)
    (r : SlotResult) : Prop :=
  ∃ s, s ∈ st.slots ∧ ∃ p, get_provider_by_id st.providers s.provider_id = some p ∧
    r = formatSlot s p ∧
    FilterOk st provider_id specialty start_date end_date location appointment_type s

theorem mem_search_results {st : SchedState}
    {provider_id specialty start_date end_date location appointment_type : Option Str}
    {max_results : Nat} {r : SlotResult}
    (hr : r ∈ (search_appointment_slots st provider_id specialty start_date end_date location
      appointment_type max_results).slots) :
    ResultOk st provider_id specialty start_date end_date location appointment_type r := by
  unfold search_appointment_slots at hr
  simp only [] at hr
  rw [List.mem_filterMap] at hr
  obtain ⟨sl, hsl, hf⟩ := hr
  have hmem : sl ∈ searchFilteredSorted st provider_id specialty start_date end_date location
      appointment_type := List.take_subset _ _ hsl
  obtain ⟨hin, hik⟩ := mem_searchFilteredSorted hmem
  rcases hp : get_provider_by_id st.providers sl.provider_id with _ | prov
  · rw [hp] at hf; cases hf
  · rw [hp] at hf
    simp only [Option.map_some'] at hf
    cases hf
    exact ⟨sl, hin, prov, hp, rfl, hik⟩

/-- Claim C4: every slot returned by `search_appointment_slots` is currently
available and satisfies every supplied filter predicate (no false
positives), the returned list is sorted ascending by (date, time), and it
contains at most `max_results` entries. -/
theorem search_appointment_slots_sound :
    ∀ (st : SchedState)
      (provider_id specialty start_date end_date location appointment_type : Option Str)
      (max_results : Nat),
      (∀ r ∈ (search_appointment_slots st provider_id specialty start_date end_date location
          appointment_type max_results).slots,
        ResultOk st provider_id specialty start_date end_date location appointment_type r) ∧
      List.Pairwise (fun r1 r2 : SlotResult =>
          (if r1.date = r2.date then strLe r1.time r2.time else strLe r1.date r2.date) = true)
        (search_appointment_slots st provider_id specialty start_date end_date location
          appointment_type max_results).slots ∧
      (search_appointment_slots st provider_id specialty start_date end_date location
          appointment_type max_results).slots.length ≤ max_results := by
  intro st fp fs fsd fed floc fty mr
  refine ⟨?_, ?_, ?_⟩
  · intro r hr
    exact mem_search_results hr
  · have hs := searchFilteredSorted_pairwise st fp fs fsd fed floc fty
    have htake := List.Pairwise.sublist (List.take_sublist mr _) hs
    unfold search_appointment_slots
    simp only []
    rw [List.pairwise_filterMap]
    refine htake.imp ?_
    intro a b hab r hr r2 hr2
    rcases hpa : get_provider_by_id st.providers a.provider_id with _ | pa
    · rw [hpa] at hr; cases hr
    · rw [hpa] at hr
      simp only [Option.map_some', Option.mem_def, Option.some.injEq] at hr
      rcases hpb : get_provider_by_id st.providers b.provider_id with _ | pb
      · rw [hpb] at hr2; cases hr2
      · rw [hpb] at hr2
        simp only [Option.map_some', Option.mem_def, Option.some.injEq] at hr2
        rw [← hr, ← hr2]
        simpa [slotLe, formatSlot] using hab
  · unfold search_appointment_slots
    simp only []
    calc (List.filterMap _ _).length ≤ _ := List.length_filterMap_le _ _
      _ ≤ mr := List.length_take_le _ _

/-- A second representative available DR001 slot, one day later. -/
def slotDR001b : AppointmentSlot :=
  { slot_id := "SLOT-DR001-0042".toList
    provider_id := "DR001".toList
    date := "2024-10-22".toList
    time := "09:30".toList
    duration := 30
    appointment_type := "Fracture Follow-up".toList
    is_available := true
    location := "BSW Medical Center - Dallas".toList }

/-- Store fixture for the search claims (slots deliberately out of date
order). -/
def stC4 : SchedState :=
  { slots := [slotDR001b, slotDR001a], providers := [DR001, DR003], patients := [PT001] }

/-- Witness for claim C4 at the concrete fixture store. -/
theorem search_appointment_slots_sound_witness :
    ResultOk stC4 none (some "Orthopedic Surgery".toList) (some "2024-10-01".toList) none none
      none (formatSlot slotDR001a DR001) ∧
    (search_appointment_slots stC4 none (some "Orthopedic Surgery".toList)
      (some "2024-10-01".toList) none none none 20).slots.length ≤ 20 := by
  have h := search_appointment_slots_sound stC4 none (some "Orthopedic Surgery".toList)
    (some "2024-10-01".toList) none none none 20
  exact ⟨h.1 (formatSlot slotDR001a DR001) (by decide), h.2.2⟩

/-! ## Metro-area location filtering (claim C5) -/

/-- A representative available DR003 (Plano) slot of type
"Fracture Follow-up". -/
def slotDR003f : AppointmentSlot :=
  { slot_id := "SLOT-DR003-0007".toList
    provider_id := "DR003".toList
    date := "2024-10-23".toList
    time := "10:00".toList
    duration := 30
    appointment_type := "Fracture Follow-up".toList
    is_available := true
    location := "BSW Medical Center - Plano".toList }

/-- Store fixture for the exactness counterexample: a Dallas slot with the
exact queried type and a Plano metro slot whose type merely contains
"Follow-up". -/
def stC5 : SchedState :=
  { slots := [slotDR001a, slotDR003f], providers := [DR001, DR003], patients := [PT001] }

/-- Counterexample to claim C5 as stated: `slotDR003f` is an available
Dallas-metro orthopedic slot whose appointment type contains "Follow-up",
yet the scenario query does not return it — because an exact
"Post-Operative Follow-up" match exists, tools.py lines 150-156 keep only
the exact matches.  So the query does not return "exactly" the available
Dallas-metro orthopedic slots whose type contains "Follow-up". -/
theorem search_dallas_followup_exactness_counterexample :
    ((search_appointment_slots stC5 none (some "Orthopedic Surgery".toList) none none
        (some "Dallas".toList) (some "Post-Operative Follow-up".toList) 20).slots.map
      (fun r => r.slot_id)) = ["SLOT-DR001-0001".toList] ∧
    slotDR003f ∈ stC5.slots ∧
    slotDR003f.is_available = true ∧
    DR003.specialty = "Orthopedic Surgery".toList ∧
    DR003.provider_id = slotDR003f.provider_id ∧
    (get_metro_cities ("Dallas".toList)).any
      (fun c => decide (lowerStr c = lowerStr DR003.city)) = true ∧
    substrOf (lowerStr ("Follow-up".toList)) (lowerStr slotDR003f.appointment_type) = true := by
  decide

theorem mem_applyOptFilter_of {o : Option Str} {pred : Str → AppointmentSlot → Bool}
    {l : List AppointmentSlot} {s : AppointmentSlot} (hl : s ∈ l)
    (h : ∀ v, optStr o = some v → pred v s = true) : s ∈ applyOptFilter o pred l := by
  unfold applyOptFilter
  rcases ho : optStr o with _ | v
  · exact hl
  · simp only []
    exact List.mem_filter.mpr ⟨hl, h v ho⟩

theorem mem_typeFilter_of_exact {o : Option Str} {l : List AppointmentSlot}
    {s : AppointmentSlot} (hl : s ∈ l)
    (h : ∀ ty, optStr o = some ty → lowerStr s.appointment_type = lowerStr ty) :
    s ∈ typeFilter o l := by
  unfold typeFilter
  rcases ho : optStr o with _ | ty
  · exact hl
  · simp only []
    have hsx : s ∈ l.filter (fun u => decide (lowerStr u.appointment_type = lowerStr ty)) :=
      List.mem_filter.mpr ⟨hl, decide_eq_true (h ty ho)⟩
    split
    next hempty =>
      exfalso
      rcases hfe : l.filter (fun u => decide (lowerStr u.appointment_type = lowerStr ty))
        with _ | ⟨a, as⟩
      · rw [hfe] at hsx; cases hsx
      · rw [hfe] at hempty; cases hempty
    next hempty => exact hsx

/-- A slot passing every filter of the search (with an exact appointment
type match when a type was supplied) reaches the sorted candidate list. -/
theorem mem_searchFilteredSorted_of {st : SchedState}
    {provider_id specialty start_date end_date location appointment_type : Option Str}
    {s : AppointmentSlot}
    (hmem : s ∈ st.slots) (hav : s.is_available = true)
    (hpid : ∀ pid, optStr provider_id = some pid → s.provider_id = pid)
    (hspec : ∀ spec, optStr specialty = some spec →
      (specialtyProviderIds st.providers spec).contains s.provider_id = true)
    (hsd : ∀ sd, optStr start_date = some sd → strLe sd s.date = true)
    (hed : ∀ ed, optStr end_date = some ed → strLe s.date ed = true)
    (hloc : ∀ loc, optStr location = some loc → locationMatch st.providers loc s = true)
    (hty : ∀ ty, optStr appointment_type = some ty →
      lowerStr s.appointment_type = lowerStr ty) :
    s ∈ searchFilteredSorted st provider_id specialty start_date end_date location
      appointment_type := by
  simp only [searchFilteredSorted]
  rw [mem_sortSlots]
  refine mem_typeFilter_of_exact ?_ hty
  refine mem_applyOptFilter_of ?_ hloc
  refine mem_applyOptFilter_of ?_ hed
  refine mem_applyOptFilter_of ?_ hsd
  refine mem_applyOptFilter_of ?_ hspec
  refine mem_applyOptFilter_of ?_ ?_
  · exact List.mem_filter.mpr ⟨hmem, hav⟩
  · intro v hv
    exact decide_eq_true (hpid v hv)

/-- Claim C5 (amended): for the scenario query (specialty "Orthopedic
Surgery", location "Dallas", appointment type "Post-Operative Follow-up"):
every returned slot is an available Dallas-metro orthopedic slot whose type
contains "Follow-up" (the code keeps only exact "Post-Operative Follow-up"
matches whenever any exist, so "exactly ... contains" fails — see the
counterexample); and the location filter surfaces metro-cluster member
slots, not only slots whose literal city is Dallas: every available slot
whose provider sits in a Dallas-metro city, has the queried specialty and
matches the queried type exactly reaches the sorted candidate list, and the
returned page itself whenever the candidates fit within `max_results`. -/
theorem search_dallas_orthopedic_followup :
    ∀ (st : SchedState) (max_results : Nat),
      (∀ r ∈ (search_appointment_slots st none (some "Orthopedic Surgery".toList) none none
          (some "Dallas".toList) (some "Post-Operative Follow-up".toList) max_results).slots,
        ResultOk st none (some "Orthopedic Surgery".toList) none none (some "Dallas".toList)
          (some "Post-Operative Follow-up".toList) r) ∧
      (∀ s p, s ∈ st.slots → s.is_available = true →
        get_provider_by_id st.providers s.provider_id = some p →
        p.specialty = "Orthopedic Surgery".toList →
        (get_metro_cities ("Dallas".toList)).any
          (fun c => decide (lowerStr c = lowerStr p.city)) = true →
        lowerStr s.appointment_type = lowerStr ("Post-Operative Follow-up".toList) →
        s ∈ searchFilteredSorted st none (some "Orthopedic Surgery".toList) none none
          (some "Dallas".toList) (some "Post-Operative Follow-up".toList) ∧
        ((searchFilteredSorted st none (some "Orthopedic Surgery".toList) none none
            (some "Dallas".toList) (some "Post-Operative Follow-up".toList)).length ≤
              max_results →
          formatSlot s p ∈ (search_appointment_slots st none
            (some "Orthopedic Surgery".toList) none none (some "Dallas".toList)
            (some "Post-Operative Follow-up".toList) max_results).slots)) := by
  intro st mr
  constructor
  · intro r hr
    exact mem_search_results hr
  · intro s p hmem hav hfind hspec hcity hexact
    have hpmem : p ∈ st.providers := List.mem_of_find?_eq_some hfind
    have hpid : p.provider_id = s.provider_id := by
      simpa using List.find?_some hfind
    have hov1 : optStr (some ("Orthopedic Surgery".toList)) =
        some ("Orthopedic Surgery".toList) := by decide
    have hov2 : optStr (some ("Dallas".toList)) = some ("Dallas".toList) := by decide
    have hov3 : optStr (some ("Post-Operative Follow-up".toList)) =
        some ("Post-Operative Follow-up".toList) := by decide
    have hcsp : (specialtyProviderIds st.providers
        ("Orthopedic Surgery".toList)).contains s.provider_id = true := by
      apply List.elem_eq_true_of_mem
      rw [← hpid]
      exact List.mem_map_of_mem _
        (List.mem_filter.mpr ⟨hpmem, decide_eq_true hspec⟩)
    have hlocm : locationMatch st.providers ("Dallas".toList) s = true := by
      unfold locationMatch
      apply Bool.or_eq_true_iff.mpr
      left
      apply List.elem_eq_true_of_mem
      rw [← hpid]
      exact List.mem_map_of_mem _ (List.mem_filter.mpr ⟨hpmem, hcity⟩)
    have hcand : s ∈ searchFilteredSorted st none (some "Orthopedic Surgery".toList) none none
        (some "Dallas".toList) (some "Post-Operative Follow-up".toList) := by
      apply mem_searchFilteredSorted_of hmem hav
      · intro pid hv; cases hv
      · intro spec hv
        rw [hov1] at hv
        cases hv
        exact hcsp
      · intro sd hv; cases hv
      · intro ed hv; cases hv
      · intro loc hv
        rw [hov2] at hv
        cases hv
        exact hlocm
      · intro ty hv
        rw [hov3] at hv
        cases hv
        exact hexact
    refine ⟨hcand, ?_⟩
    intro hlen
    unfold search_appointment_slots
    simp only []
    rw [List.take_of_length_le hlen]
    rw [List.mem_filterMap]
    exact ⟨s, hcand, by rw [hfind]; rfl⟩

/-- A representative available DR003 (Plano) slot with the exact queried
type "Post-Operative Follow-up". -/
def slotDR003p : AppointmentSlot :=
  { slot_id := "SLOT-DR003-0011".toList
    provider_id := "DR003".toList
    date := "2024-10-24".toList
    time := "11:00".toList
    duration := 30
    appointment_type := "Post-Operative Follow-up".toList
    is_available := true
    location := "BSW Medical Center - Plano".toList }

/-- Store fixture for the metro-surfacing witness. -/
def stC5w : SchedState :=
  { slots := [slotDR001a, slotDR003p], providers := [DR001, DR003], patients := [PT001] }

/-- Witness for claim C5: the Plano slot — a metro-cluster member, not a
literal "Dallas" city match — is surfaced by the Dallas scenario query, and
the Dallas slot's record satisfies every filter. -/
theorem search_dallas_orthopedic_followup_witness :
    formatSlot slotDR003p DR003 ∈ (search_appointment_slots stC5w none
      (some "Orthopedic Surgery".toList) none none (some "Dallas".toList)
      (some "Post-Operative Follow-up".toList) 20).slots ∧
    ResultOk stC5w none (some "Orthopedic Surgery".toList) none none (some "Dallas".toList)
      (some "Post-Operative Follow-up".toList) (formatSlot slotDR001a DR001) := by
  have h := search_dallas_orthopedic_followup stC5w 20
  have h2 := h.2 slotDR003p DR003 (by decide) (by decide) (by decide) (by decide)
    (by decide) (by decide)
  exact ⟨h2.2 (by decide), h.1 (formatSlot slotDR001a DR001) (by decide)⟩

/-! ## check_referral_status (tools.py lines 443-537; claims C6 and C10)

`datetime.now()` is the `today : Int` day-number parameter; for a stored
midnight date, `(datetime.now() - visit_date).days` equals
`today - v.dateDay` exactly. -/

/-- The result dictionary of `check_referral_status`; name/message and
recommendation echo fields are elided.  `has_referral` is an `Option`
because the patient-not-found error dictionary omits the key. -/
structure ReferralResult where
  success : Bool
  error : Option Str
  has_referral : Option Bool
  referral_date : Option Int
  days_remaining_valid : Option Int
  status : Option Str
deriving DecidableEq

/-- Mirrors tools.py line 491: the visit's notes mention the specialty
(case-insensitive substring). -/
def visitMentions (specialty : Str) (v : Visit) : Bool :=
  substrOf (lowerStr specialty) (lowerStr v.notes)

/-- Mirrors the scan of tools.py lines 489-500: the first visit whose notes
mention the specialty and whose date is at most 90 days old wins; a
mentioning visit older than 90 days is skipped, not terminal. -/
def findQualifyingVisit (today : Int) (specialty : Str) : List Visit → Option Visit
  | [] => none
  | v :: rest =>
    if visitMentions specialty v = true ∧ today - v.dateDay ≤ 90 then some v
    else findQualifyingVisit today specialty rest

/-- Python truthiness of the PCP reference on tools.py line 470: `None` and
the empty string are both falsy. -/
def pcpFalsy : Option Str → Bool
  | none => true
  | some s => s.isEmpty

/-- The body of `check_referral_status` after the patient lookup. -/
def referralForPatient (today : Int) (patient : Patient) (specialty : Str) :
    ReferralResult :=
  if pcpFalsy patient.primary_care_provider then
    { success := true, error := none, has_referral := some false, referral_date := none,
      days_remaining_valid := none, status := none }
  else
    match findQualifyingVisit today specialty patient.recent_visits with
    | some v =>
      let days_remaining := 90 - (today - v.dateDay)
      { success := true
        error := none
        has_referral := some true
        referral_date := some v.dateDay
        days_remaining_valid := some days_remaining
        status := some (if 0 < days_remaining then "Valid".toList else "Expired".toList) }
    | none =>
      { success := true, error := none, has_referral := some false, referral_date := none,
        days_remaining_valid := none, status := none }

/-- Mirrors tools.py `check_referral_status`. -/
def check_referral_status (st : SchedState) (today : Int) (patient_id specialty : Str) :
    ReferralResult :=
  match get_patient_by_id st.patients patient_id with
  | none =>
    { success := false
      error := some ("Patient with ID ".toList ++ [apos] ++ patient_id ++ [apos] ++
        " not found".toList)
      has_referral := none
      referral_date := none
      days_remaining_valid := none
      status := none }
  | some patient => referralForPatient today patient specialty

theorem findQualifyingVisit_isSome {today : Int} {specialty : Str} {l : List Visit}
    {v : Visit} (hv : v ∈ l) (hm : visitMentions specialty v = true)
    (hd : today - v.dateDay ≤ 90) :
    ∃ w, findQualifyingVisit today specialty l = some w := by
  induction l with
  | nil => cases hv
  | cons x xs ih =>
    unfold findQualifyingVisit
    by_cases hx : visitMentions specialty x = true ∧ today - x.dateDay ≤ 90
    · exact ⟨x, if_pos hx ▸ rfl⟩
    · rw [if_neg hx]
      rcases List.mem_cons.mp hv with rfl | hv2
      · exact absurd ⟨hm, hd⟩ hx
      · exact ih hv2

theorem findQualifyingVisit_eq_none {today : Int} {specialty : Str} {l : List Visit}
    (h : ∀ v ∈ l, visitMentions specialty v = true → ¬ today - v.dateDay ≤ 90) :
    findQualifyingVisit today specialty l = none := by
  induction l with
  | nil => rfl
  | cons x xs ih =>
    unfold findQualifyingVisit
    have hx : ¬ (visitMentions specialty x = true ∧ today - x.dateDay ≤ 90) := by
      rintro ⟨hm, hd⟩
      exact h x (List.mem_cons_self x xs) hm hd
    rw [if_neg hx]
    exact ih (fun v hv hm => h v (List.mem_cons_of_mem x hv) hm)

theorem findQualifyingVisit_spec {today : Int} {specialty : Str} {l : List Visit}
    {v : Visit} (h : findQualifyingVisit today specialty l = some v) :
    v ∈ l ∧ visitMentions specialty v = true ∧ today - v.dateDay ≤ 90 := by
  induction l with
  | nil => cases h
  | cons x xs ih =>
    unfold findQualifyingVisit at h
    by_cases hx : visitMentions specialty x = true ∧ today - x.dateDay ≤ 90
    · rw [if_pos hx] at h
      obtain rfl : x = v := by injection h
      exact ⟨List.mem_cons_self x xs, hx⟩
    · rw [if_neg hx] at h
      obtain ⟨hm, hrest⟩ := ih h
      exact ⟨List.mem_cons_of_mem x hm, hrest⟩

/-- Claim C6: for a patient with an assigned PCP, a visit whose notes
mention the specialty and which is exactly 90 days old yields
`has_referral=true`; if every mentioning visit is 91 or more days old the
result is `has_referral=false`; and a positive result reports
`days_remaining_valid = 90 - days-since-visit` for a qualifying visit. -/
theorem check_referral_status_window :
    ∀ (st : SchedState) (today : Int) (patient_id specialty : Str) (patient : Patient),
      get_patient_by_id st.patients patient_id = some patient →
      pcpFalsy patient.primary_care_provider = false →
      ((∃ v ∈ patient.recent_visits,
          visitMentions specialty v = true ∧ today - v.dateDay = 90) →
        (check_referral_status st today patient_id specialty).has_referral = some true) ∧
      ((∀ v ∈ patient.recent_visits,
          visitMentions specialty v = true → 91 ≤ today - v.dateDay) →
        (check_referral_status st today patient_id specialty).has_referral = some false) ∧
      ((check_referral_status st today patient_id specialty).has_referral = some true →
        ∃ v ∈ patient.recent_visits,
          visitMentions specialty v = true ∧ today - v.dateDay ≤ 90 ∧
          (check_referral_status st today patient_id specialty).days_remaining_valid =
            some (90 - (today - v.dateDay))) := by
  intro st today patient_id specialty patient hpat hpcp
  have hcall : check_referral_status st today patient_id specialty =
      referralForPatient today patient specialty := by
    unfold check_referral_status
    rw [hpat]
  refine ⟨?_, ?_, ?_⟩
  · rintro ⟨v, hv, hm, hd⟩
    rw [hcall]
    obtain ⟨w, hw⟩ := findQualifyingVisit_isSome hv hm (le_of_eq hd)
    simp [referralForPatient, hpcp, hw]
  · intro hall
    rw [hcall]
    have hnone : findQualifyingVisit today specialty patient.recent_visits = none := by
      apply findQualifyingVisit_eq_none
      intro v hv hm
      have := hall v hv hm
      omega
    simp [referralForPatient, hpcp, hnone]
  · intro hpos
    rw [hcall] at hpos ⊢
    rcases hq : findQualifyingVisit today specialty patient.recent_visits with _ | v
    · exfalso
      simp [referralForPatient, hpcp, hq] at hpos
    · obtain ⟨hv, hm, hd⟩ := findQualifyingVisit_spec hq
      refine ⟨v, hv, hm, hd, ?_⟩
      simp [referralForPatient, hpcp, hq]

/-- A visit dated exactly 90 days before the witness "now" (day 100) whose
notes mention cardiology. -/
def visit90 : Visit :=
  { dateDay := 10
    provider := "DR007".toList
    specialty := "Primary Care".toList
    notes := "Referred to cardiology for stress test".toList }

/-- The same referral note, 95 days old at day 100. -/
def visit95 : Visit :=
  { dateDay := 5
    provider := "DR007".toList
    specialty := "Primary Care".toList
    notes := "Referred to cardiology for stress test".toList }

/-- Patient whose only mentioning visit is exactly 90 days old. -/
def pt90 : Patient :=
  { patient_id := "PT090".toList
    first_name := "James".toList
    last_name := "Wilson".toList
    insurance_provider := "Medicare".toList
    primary_care_provider := some "DR007".toList
    recent_visits := [visit90] }

/-- Patient whose only mentioning visit is 95 days old. -/
def pt95 : Patient :=
  { patient_id := "PT095".toList
    first_name := "Ann".toList
    last_name := "Wilson".toList
    insurance_provider := "Medicare".toList
    primary_care_provider := some "DR007".toList
    recent_visits := [visit95] }

/-- Store fixture for the referral-window witness. -/
def stC6 : SchedState := { slots := [], providers := [], patients := [pt90, pt95] }

/-- Witness for claim C6: at day 100 the 90-day-old visit still yields a
referral (with 0 days remaining) and the 95-day-old one does not. -/
theorem check_referral_status_window_witness :
    (check_referral_status stC6 100 ("PT090".toList) ("Cardiology".toList)).has_referral =
      some true ∧
    (check_referral_status stC6 100 ("PT095".toList) ("Cardiology".toList)).has_referral =
      some false := by
  have h1 := check_referral_status_window stC6 100 ("PT090".toList) ("Cardiology".toList)
    pt90 (by decide) (by decide)
  have h2 := check_referral_status_window stC6 100 ("PT095".toList) ("Cardiology".toList)
    pt95 (by decide) (by decide)
  exact ⟨h1.1 ⟨visit90, by decide, by decide, by decide⟩, h2.2.1 (by decide)⟩

/-- Patient with no assigned PCP but a fresh visit whose notes mention the
specialty (5 days old at day 100). -/
def ptNoPcp : Patient :=
  { patient_id := "PT404".toList
    first_name := "Noah".toList
    last_name := "Price".toList
    insurance_provider := "Aetna".toList
    primary_care_provider := none
    recent_visits :=
      [{ dateDay := 95
         provider := "DR007".toList
         specialty := "Primary Care".toList
         notes := "Referred to cardiology for stress test".toList }] }

/-- Store fixture for the no-PCP claim. -/
def stC10 : SchedState := { slots := [], providers := [], patients := [ptNoPcp] }

/-- The no-referral result record shared by the no-PCP and no-qualifying-
visit branches (their elided message fields differ in the source). -/
def noReferralResult : ReferralResult :=
  { success := true
    error := none
    has_referral := some false
    referral_date := none
    days_remaining_valid := none
    status := none }

/-- Claim C10: when the patient's PCP reference is absent (None or empty),
`check_referral_status` answers `success=true`, `has_referral=false`
without consulting the visit records at all — replacing the visit list by
anything changes nothing — even when a visit inside the 90-day window
mentions the target specialty. -/
theorem check_referral_status_no_pcp :
    ∀ (today : Int) (patient : Patient) (specialty : Str) (visits2 : List Visit),
      pcpFalsy patient.primary_care_provider = true →
      (referralForPatient today patient specialty).success = true ∧
      (referralForPatient today patient specialty).has_referral = some false ∧
      referralForPatient today { patient with recent_visits := visits2 } specialty =
        referralForPatient today patient specialty ∧
      (∀ (st : SchedState) (pid : Str), get_patient_by_id st.patients pid = some patient →
        (check_referral_status st today pid specialty).success = true ∧
        (check_referral_status st today pid specialty).has_referral = some false) := by
  intro today patient specialty visits2 hpcp
  have hbody : ∀ visits, referralForPatient today { patient with recent_visits := visits }
      specialty = noReferralResult := by
    intro visits
    unfold referralForPatient noReferralResult
    rw [if_pos]
    show pcpFalsy patient.primary_care_provider = true
    exact hpcp
  have hself : referralForPatient today patient specialty = noReferralResult := by
    have := hbody patient.recent_visits
    simpa using this
  refine ⟨by rw [hself]; rfl, by rw [hself]; rfl, by rw [hbody visits2, hself], ?_⟩
  intro st pid hfind
  have hcall : check_referral_status st today pid specialty =
      referralForPatient today patient specialty := by
    unfold check_referral_status
    rw [hfind]
  rw [hcall, hself]
  exact ⟨rfl, rfl⟩

/-- Witness for claim C10: `ptNoPcp` has a qualifying in-window visit, yet
the call reports no referral. -/
theorem check_referral_status_no_pcp_witness :
    (check_referral_status stC10 100 ("PT404".toList) ("Cardiology".toList)).success = true ∧
    (check_referral_status stC10 100 ("PT404".toList) ("Cardiology".toList)).has_referral =
      some false ∧
    ptNoPcp.recent_visits.map (visitMentions ("Cardiology".toList)) = [true] ∧
    ptNoPcp.recent_visits.map (fun v => decide (100 - v.dateDay ≤ 90)) = [true] := by
  have h := check_referral_status_no_pcp 100 ptNoPcp ("Cardiology".toList) [] (by decide)
  have h4 := h.2.2.2 stC10 ("PT404".toList) (by decide)
  exact ⟨h4.1, h4.2, by decide, by decide⟩

/-! ## Intent router (src/agents/router.py; claim C7)

The single OpenAI call of `route_patient` is embedded as an
`Except Str Str` parameter: `.ok text` is the model's reply,
`.error msg` any exception raised up to the catch-all on line 174.  The
keyword scan, statistics update, reasoning text and timestamps do not
affect the claims and are elided. -/

/-- Mirrors router.py lines 125-137: extract the agent from the lowercased
reply, defaulting to "unclear". -/
def parseAgent (rl : Str) : Str :=
  if substrOf ("orthopedic".toList) rl then "orthopedic".toList
  else if substrOf ("cardiology".toList) rl || substrOf ("cardiac".toList) rl then
    "cardiology".toList
  else if substrOf ("primary".toList) rl || substrOf ("primary care".toList) rl then
    "primary_care".toList
  else "unclear".toList

/-- Mirrors router.py lines 139-142: extract the confidence tier from the
lowercased reply, defaulting to "medium". -/
def parseConfidence (rl : Str) : Str :=
  if substrOf ("high confidence".toList) rl || substrOf ("clearly".toList) rl then
    "high".toList
  else if substrOf ("low confidence".toList) rl || substrOf ("unclear".toList) rl ||
      substrOf ("uncertain".toList) rl then
    "low".toList
  else "medium".toList

/-- The routing result fields the claims consult. -/
structure RouteResult where
  success : Bool
  agent : Str
  confidence : Str
deriving DecidableEq

/-- Mirrors router.py `route_patient`: parse the reply on success; any
exception degrades to `unclear`/`low` with `success=false` (lines 174-185). -/
def route_patient (completion : Except Str Str) : RouteResult :=
  match completion with
  | .error _ => { success := false, agent := "unclear".toList, confidence := "low".toList }
  | .ok resp =>
    { success := true
      agent := parseAgent (lowerStr resp)
      confidence := parseConfidence (lowerStr resp) }

/-- The `route_with_fallback` result fields the claims consult. -/
structure RouteFallbackResult where
  success : Bool
  agent : Str
  confidence : Str
  fallback_used : Bool
deriving DecidableEq

/-- Mirrors router.py lines 188-213: substitute the default agent whenever
the routing is `unclear` OR the confidence is `low`. -/
def route_with_fallback (completion : Except Str Str) (default_agent : Str) :
    RouteFallbackResult :=
  let result := route_patient completion
  if result.agent = "unclear".toList ∨ result.confidence = "low".toList then
    { success := result.success
      agent := default_agent
      confidence := result.confidence
      fallback_used := true }
  else
    { success := result.success
      agent := result.agent
      confidence := result.confidence
      fallback_used := false }

theorem route_with_fallback_pos {c : Except Str Str} {dflt : Str}
    (hc : (route_patient c).agent = "unclear".toList ∨
      (route_patient c).confidence = "low".toList) :
    (route_with_fallback c dflt).agent = dflt ∧
      (route_with_fallback c dflt).fallback_used = true := by
  unfold route_with_fallback
  rw [if_pos hc]
  exact ⟨rfl, rfl⟩

theorem route_with_fallback_neg {c : Except Str Str} {dflt : Str}
    (hc : ¬ ((route_patient c).agent = "unclear".toList ∨
      (route_patient c).confidence = "low".toList)) :
    (route_with_fallback c dflt).agent = (route_patient c).agent ∧
      (route_with_fallback c dflt).fallback_used = false := by
  unfold route_with_fallback
  rw [if_neg hc]
  exact ⟨rfl, rfl⟩

/-- Counterexample to claim C7 as stated: the classifier reply
"orthopedic, low confidence" parses to agent "orthopedic" (not "unclear",
no error, success=true), yet `route_with_fallback` substitutes the default
and sets `fallback_used=true`, because router.py line 206 also falls back
on low confidence.  The claim's "otherwise fallback_used=false" is false
here. -/
theorem route_with_fallback_low_confidence_counterexample :
    (route_patient (Except.ok ("orthopedic, low confidence".toList))).success = true ∧
    (route_patient (Except.ok ("orthopedic, low confidence".toList))).agent =
      "orthopedic".toList ∧
    (route_with_fallback (Except.ok ("orthopedic, low confidence".toList))
        ("primary_care".toList)).fallback_used = true ∧
    (route_with_fallback (Except.ok ("orthopedic, low confidence".toList))
        ("primary_care".toList)).agent = "primary_care".toList := by
  decide

/-- Claim C7 (amended): with a default agent that is not the string
"unclear", `route_with_fallback` never returns "unclear"; the default is
substituted with `fallback_used=true` whenever the classifier errors,
returns "unclear", OR returns low confidence; only when the classifier's
agent is clear and its confidence is not low is the classifier's agent kept
with `fallback_used=false`. -/
theorem route_with_fallback_guarantee :
    ∀ (completion : Except Str Str) (default_agent : Str),
      default_agent ≠ "unclear".toList →
      (route_with_fallback completion default_agent).agent ≠ "unclear".toList ∧
      (∀ e, completion = .error e →
        (route_with_fallback completion default_agent).agent = default_agent ∧
        (route_with_fallback completion default_agent).fallback_used = true) ∧
      ((route_patient completion).agent = "unclear".toList →
        (route_with_fallback completion default_agent).agent = default_agent ∧
        (route_with_fallback completion default_agent).fallback_used = true) ∧
      ((route_patient completion).confidence = "low".toList →
        (route_with_fallback completion default_agent).agent = default_agent ∧
        (route_with_fallback completion default_agent).fallback_used = true) ∧
      ((route_patient completion).agent ≠ "unclear".toList →
        (route_patient completion).confidence ≠ "low".toList →
        (route_with_fallback completion default_agent).agent =
          (route_patient completion).agent ∧
        (route_with_fallback completion default_agent).fallback_used = false) := by
  intro completion default_agent hdef
  refine ⟨?_, ?_, ?_, ?_, ?_⟩
  · by_cases hc : (route_patient completion).agent = "unclear".toList ∨
        (route_patient completion).confidence = "low".toList
    · rw [(route_with_fallback_pos hc).1]
      exact hdef
    · rw [(route_with_fallback_neg hc).1]
      exact fun h => hc (Or.inl h)
  · intro e he
    apply route_with_fallback_pos
    left
    rw [he]
    rfl
  · intro h
    exact route_with_fallback_pos (Or.inl h)
  · intro h
    exact route_with_fallback_pos (Or.inr h)
  · intro h1 h2
    exact route_with_fallback_neg (not_or.mpr ⟨h1, h2⟩)

/-- Witness for claim C7: a clear high-confidence reply keeps its agent
without fallback; a classifier error falls back to the default. -/
theorem route_with_fallback_guarantee_witness :
    (route_with_fallback (Except.ok ("Clearly cardiology.".toList))
        ("primary_care".toList)).agent = "cardiology".toList ∧
    (route_with_fallback (Except.ok ("Clearly cardiology.".toList))
        ("primary_care".toList)).fallback_used = false ∧
    (route_with_fallback (Except.error ("timeout".toList))
        ("primary_care".toList)).agent = "primary_care".toList ∧
    (route_with_fallback (Except.error ("timeout".toList))
        ("primary_care".toList)).fallback_used = true := by
  have h1 := route_with_fallback_guarantee (Except.ok ("Clearly cardiology.".toList))
    ("primary_care".toList) (by decide)
  have h2 := route_with_fallback_guarantee (Except.error ("timeout".toList))
    ("primary_care".toList) (by decide)
  obtain ⟨ha, hf⟩ := h1.2.2.2.2 (by decide) (by decide)
  obtain ⟨ha2, hf2⟩ := h2.2.1 ("timeout".toList) rfl
  refine ⟨?_, hf, ha2, hf2⟩
  rw [ha]
  decide

/-! ## Cardiology conversation loop (src/agents/cardiology_agent.py;
claims C8 and C9)

The completion service is a function parameter from the current message
list to a reply (content plus proposed tool calls); the tool dispatcher is
a function parameter from (name, raw arguments) to an execution result.
Token accounting and logging are elided. -/

/-- One proposed tool call of an assistant reply. -/
structure ToolCall where
  id : Str
  name : Str
  arguments : Str
deriving DecidableEq

/-- One completion-service reply. -/
structure ModelReply where
  content : Str
  tool_calls : List ToolCall
deriving DecidableEq

/-- One entry of the message list sent to the completion service. -/
structure ChatMsg where
  role : Str
  content : Str
  tool_call_id : Option Str
  tool_calls : List ToolCall
deriving DecidableEq

/-- What the loop reads off a dispatched tool result: the `success` flag,
the `appointment_details` payload (`tool_result.get("appointment_details",
{})` always yields a dictionary, hence a total field here) and the
serialized text appended as the tool message. -/
structure ToolExecResult where
  success : Bool
  appointment_details : AppointmentDetails
  content : Str
deriving DecidableEq

/-- The result dictionary of `handle_cardiology_request`; token counts and
the model name are elided.  `iterations` is only present on the success
path (line 178). -/
structure CardioResult where
  success : Bool
  error : Option Str
  response : Str
  tools_used : List Str
  appointment_details : Option AppointmentDetails
  urgency_level : Str
  iterations : Option Nat
deriving DecidableEq

/-- The emergency keyword list of cardiology_agent.py lines 129-133. -/
def emergency_keywords : List Str :=
  ["chest pain".toList, "severe pain".toList, "heart attack".toList,
   "can".toList ++ [apos] ++ "t breathe".toList, "shortness of breath".toList,
   "passing out".toList, "unconscious".toList, "crushing pain".toList,
   "radiating pain".toList, "sweating".toList, "nausea and chest pain".toList]

/-- The hard-coded emergency-redirect notice prepended on line 168. -/
def emergencyNotice : Str :=
  ("=ï¿½ IMPORTANT: If you are experiencing severe chest pain or cardiac symptoms, " ++
   "please call 911 or go to the nearest emergency room immediately. " ++
   "Do not wait for an appointment.\n\n").toList

/-- The degraded response of the iteration-limit branch (line 230),
directing the user to the human cardiology office channel. -/
def limitResponse : Str :=
  "I apologize, but I".toList ++ [apos] ++
    ("m having trouble completing your request. " ++
     "Please call our cardiology office directly for assistance.").toList

/-- The error text of the iteration-limit branch (line 229). -/
def limitErrorMsg : Str := "Maximum iteration limit reached".toList

/-- The iteration-limit result dictionary (cardiology_agent.py lines
227-235): a failure that still carries the tool log, any captured
appointment details and the urgency level. -/
def limitResult (tools_used : List Str) (appt : Option AppointmentDetails)
    (urgency : Str) : CardioResult :=
  { success := false
    error := some limitErrorMsg
    response := limitResponse
    tools_used := tools_used
    appointment_details := appt
    urgency_level := urgency
    iterations := none }

/-- Mirrors the per-reply tool execution of lines 204-223: run every
proposed call in order, log its name, capture appointment details on a
successful `book_appointment`, and append a tool-role message. -/
def execToolCalls (exec : Str → Str → ToolExecResult) :
    List ToolCall → List Str → Option AppointmentDetails → List ChatMsg →
    List Str × Option AppointmentDetails × List ChatMsg
  | [], tools_used, appt, msgs => (tools_used, appt, msgs)
  | tc :: rest, tools_used, appt, msgs =>
    let r := exec tc.name tc.arguments
    let appt2 := if tc.name = "book_appointment".toList ∧ r.success = true then
      some r.appointment_details else appt
    let toolMsg : ChatMsg :=
      { role := "tool".toList, content := r.content, tool_call_id := some tc.id,
        tool_calls := [] }
    execToolCalls exec rest (tools_used ++ [tc.name]) appt2 (msgs ++ [toolMsg])

/-- The assistant message appended for a reply with tool calls (lines
188-202). -/
def assistantMsgOf (reply : ModelReply) : ChatMsg :=
  { role := "assistant".toList, content := reply.content, tool_call_id := none,
    tool_calls := reply.tool_calls }

/-- The iterative function-calling loop of lines 140-235, with the
remaining iteration budget as fuel (initially 10).  Besides the result it
returns the number of completion-service invocations made. -/
def cardioLoop (complete : List ChatMsg → ModelReply) (exec : Str → Str → ToolExecResult) :
    List ChatMsg → List Str → Option AppointmentDetails → Str → Nat → Nat →
    CardioResult × Nat
  | _msgs, tools_used, appt, urgency, _iter, 0 => (limitResult tools_used appt urgency, 0)
  | msgs, tools_used, appt, urgency, iter, fuel + 1 =>
    let reply := complete msgs
    if reply.tool_calls.isEmpty then
      let final :=
        if urgency = "emergent".toList ∧ substrOf ("911".toList) reply.content = false ∧
            substrOf ("emergency".toList) (lowerStr reply.content) = false then
          emergencyNotice ++ reply.content
        else reply.content
      ({ success := true
         error := none
         response := final
         tools_used := tools_used
         appointment_details := appt
         urgency_level := urgency
         iterations := some (iter + 1) }, 1)
    else
      let step := execToolCalls exec reply.tool_calls tools_used appt []
      let res := cardioLoop complete exec (msgs ++ [assistantMsgOf reply] ++ step.2.2) step.1
        step.2.1 urgency (iter + 1) fuel
      (res.1, res.2 + 1)

/-- Mirrors the history re-mapping of lines 97-112. -/
def historyMsg (m : ChatMsg) : ChatMsg :=
  if m.role = "tool".toList then
    { role := "tool".toList
      content := m.content
      tool_call_id := some (match m.tool_call_id with
        | some i => i
        | none => "unknown".toList)
      tool_calls := [] }
  else
    { role := m.role, content := m.content, tool_call_id := none, tool_calls := [] }

/-- Mirrors `handle_cardiology_request`: scan the user message for
emergency keywords (lines 129-138), build the message list (system prompt
plus retrieved context abstracted as `system_content`, re-mapped history,
user message), then run the loop with an iteration budget of 10. -/
def handle_cardiology_request (complete : List ChatMsg → ModelReply)
    (exec : Str → Str → ToolExecResult) (system_content : Str)
    (conversation_history : List ChatMsg) (user_message : Str) : CardioResult × Nat :=
  let urgency :=
    if emergency_keywords.any (fun k => substrOf k (lowerStr user_message)) then
      "emergent".toList
    else "routine".toList
  let msgs :=
    ({ role := "system".toList, content := system_content, tool_call_id := none,
       tool_calls := [] } : ChatMsg) ::
      (conversation_history.map historyMsg ++
        [{ role := "user".toList, content := user_message, tool_call_id := none,
           tool_calls := [] }])
  cardioLoop complete exec msgs [] none urgency 0 10

theorem execToolCalls_log (exec : Str → Str → ToolExecResult) (tcs : List ToolCall)
    (log : List Str) (appt : Option AppointmentDetails) (msgs : List ChatMsg) :
    (execToolCalls exec tcs log appt msgs).1 = log ++ tcs.map (fun tc => tc.name) := by
  induction tcs generalizing log appt msgs with
  | nil => simp [execToolCalls]
  | cons tc rest ih =>
    unfold execToolCalls
    simp only []
    rw [ih]
    simp

theorem execToolCalls_appt (exec : Str → Str → ToolExecResult) (tcs : List ToolCall)
    (log : List Str) (appt : Option AppointmentDetails) (msgs : List ChatMsg)
    (h : appt.isSome = true) :
    ((execToolCalls exec tcs log appt msgs).2.1).isSome = true := by
  induction tcs generalizing log appt msgs with
  | nil => exact h
  | cons tc rest ih =>
    unfold execToolCalls
    simp only []
    apply ih
    by_cases hc : tc.name = "book_appointment".toList ∧ (exec tc.name tc.arguments).success = true
    · rw [if_pos hc]; rfl
    · rw [if_neg hc]; exact h

theorem cardioLoop_urgency (complete : List ChatMsg → ModelReply)
    (exec : Str → Str → ToolExecResult) :
    ∀ (fuel : Nat) (msgs : List ChatMsg) (log : List Str)
      (appt : Option AppointmentDetails) (urg : Str) (iter : Nat),
      ((cardioLoop complete exec msgs log appt urg iter fuel).1).urgency_level = urg := by
  intro fuel
  induction fuel with
  | zero => intro msgs log appt urg iter; rfl
  | succ n ih =>
    intro msgs log appt urg iter
    unfold cardioLoop
    simp only []
    by_cases hempty : (complete msgs).tool_calls.isEmpty = true
    · rw [if_pos hempty]
    · rw [if_neg hempty]
      exact ih _ _ _ _ _

theorem cardioLoop_count_le (complete : List ChatMsg → ModelReply)
    (exec : Str → Str → ToolExecResult) :
    ∀ (fuel : Nat) (msgs : List ChatMsg) (log : List Str)
      (appt : Option AppointmentDetails) (urg : Str) (iter : Nat),
      (cardioLoop complete exec msgs log appt urg iter fuel).2 ≤ fuel := by
  intro fuel
  induction fuel with
  | zero => intro msgs log appt urg iter; exact Nat.le_refl 0
  | succ n ih =>
    intro msgs log appt urg iter
    unfold cardioLoop
    simp only []
    by_cases hempty : (complete msgs).tool_calls.isEmpty = true
    · rw [if_pos hempty]
      exact Nat.succ_le_succ (Nat.zero_le n)
    · rw [if_neg hempty]
      exact Nat.succ_le_succ (ih _ _ _ _ _)

theorem cardioLoop_appt_preserved (complete : List ChatMsg → ModelReply)
    (exec : Str → Str → ToolExecResult) :
    ∀ (fuel : Nat) (msgs : List ChatMsg) (log : List Str)
      (appt : Option AppointmentDetails) (urg : Str) (iter : Nat),
      appt.isSome = true →
      (((cardioLoop complete exec msgs log appt urg iter fuel).1).appointment_details).isSome =
        true := by
  intro fuel
  induction fuel with
  | zero => intro msgs log appt urg iter h; exact h
  | succ n ih =>
    intro msgs log appt urg iter h
    unfold cardioLoop
    simp only []
    by_cases hempty : (complete msgs).tool_calls.isEmpty = true
    · rw [if_pos hempty]; exact h
    · rw [if_neg hempty]
      exact ih _ _ _ _ _ (execToolCalls_appt _ _ _ _ _ h)

theorem cardioLoop_pathological (complete : List ChatMsg → ModelReply)
    (exec : Str → Str → ToolExecResult)
    (hpath : ∀ ms, (complete ms).tool_calls ≠ []) :
    ∀ (fuel : Nat) (msgs : List ChatMsg) (log : List Str)
      (appt : Option AppointmentDetails) (urg : Str) (iter : Nat),
      ((cardioLoop complete exec msgs log appt urg iter fuel).1).success = false ∧
      ((cardioLoop complete exec msgs log appt urg iter fuel).1).error = some limitErrorMsg ∧
      ((cardioLoop complete exec msgs log appt urg iter fuel).1).response = limitResponse ∧
      ((cardioLoop complete exec msgs log appt urg iter fuel).1).iterations = none ∧
      (cardioLoop complete exec msgs log appt urg iter fuel).2 = fuel ∧
      ∃ ext, ((cardioLoop complete exec msgs log appt urg iter fuel).1).tools_used =
        log ++ ext ∧ fuel ≤ ext.length := by
  intro fuel
  induction fuel with
  | zero =>
    intro msgs log appt urg iter
    exact ⟨rfl, rfl, rfl, rfl, rfl, [], (List.append_nil log).symm, Nat.le_refl 0⟩
  | succ n ih =>
    intro msgs log appt urg iter
    have hempty : (complete msgs).tool_calls.isEmpty = false := by
      rcases hr : (complete msgs).tool_calls with _ | ⟨a, b⟩
      · exact absurd hr (hpath msgs)
      · rfl
    unfold cardioLoop
    simp only []
    rw [hempty]
    simp only [Bool.false_eq_true, if_false]
    obtain ⟨h1, h2, h3, h4, h5, ext, hext, hlen⟩ := ih
      (msgs ++ [assistantMsgOf (complete msgs)] ++
        (execToolCalls exec (complete msgs).tool_calls log appt []).2.2)
      (execToolCalls exec (complete msgs).tool_calls log appt []).1
      (execToolCalls exec (complete msgs).tool_calls log appt []).2.1 urg (iter + 1)
    refine ⟨h1, h2, h3, h4, by rw [h5], ?_⟩
    have hlog := execToolCalls_log exec (complete msgs).tool_calls log appt []
    refine ⟨(complete msgs).tool_calls.map (fun tc => tc.name) ++ ext, ?_, ?_⟩
    · rw [hext, hlog, List.append_assoc]
    · have hpos : 0 < ((complete msgs).tool_calls.map (fun tc => tc.name)).length := by
        rw [List.length_map]
        exact List.length_pos.mpr (hpath msgs)
      rw [List.length_append]
      omega

theorem cardioLoop_success_response (complete : List ChatMsg → ModelReply)
    (exec : Str → Str → ToolExecResult) :
    ∀ (fuel : Nat) (msgs : List ChatMsg) (log : List Str)
      (appt : Option AppointmentDetails) (urg : Str) (iter : Nat),
      ((cardioLoop complete exec msgs log appt urg iter fuel).1).success = true →
      ∃ content,
        ((cardioLoop complete exec msgs log appt urg iter fuel).1).response =
          if urg = "emergent".toList ∧ substrOf ("911".toList) content = false ∧
              substrOf ("emergency".toList) (lowerStr content) = false then
            emergencyNotice ++ content
          else content := by
  intro fuel
  induction fuel with
  | zero =>
    intro msgs log appt urg iter h
    cases h
  | succ n ih =>
    intro msgs log appt urg iter h
    unfold cardioLoop at h ⊢
    simp only [] at h ⊢
    by_cases hempty : (complete msgs).tool_calls.isEmpty = true
    · rw [if_pos hempty] at h ⊢
      exact ⟨(complete msgs).content, rfl⟩
    · rw [if_neg hempty] at h ⊢
      exact ih _ _ _ _ _ h

/-- Claim C8: the cardiology conversation loop never invokes the completion
service more than 10 times; with a pathological model that proposes a tool
call on every reply, the turn terminates after exactly 10 iterations with
the iteration-limit failure (`success=false`, the "Maximum iteration limit
reached" error, the degraded human-channel response, no `iterations` key)
while still carrying the tool-call log (one entry per executed call, hence
at least 10); and an appointment capture made before the limit is never
dropped by the remaining iterations. -/
theorem handle_cardiology_iteration_limit :
    ∀ (complete : List ChatMsg → ModelReply) (exec : Str → Str → ToolExecResult)
      (system_content : Str) (history : List ChatMsg) (user_message : Str),
      (handle_cardiology_request complete exec system_content history user_message).2 ≤ 10 ∧
      ((∀ ms, (complete ms).tool_calls ≠ []) →
        (handle_cardiology_request complete exec system_content history user_message).2 = 10 ∧
        ((handle_cardiology_request complete exec system_content history
            user_message).1).success = false ∧
        ((handle_cardiology_request complete exec system_content history
            user_message).1).error = some limitErrorMsg ∧
        ((handle_cardiology_request complete exec system_content history
            user_message).1).response = limitResponse ∧
        ((handle_cardiology_request complete exec system_content history
            user_message).1).iterations = none ∧
        10 ≤ ((handle_cardiology_request complete exec system_content history
            user_message).1).tools_used.length) ∧
      (∀ (msgs : List ChatMsg) (log : List Str) (appt : Option AppointmentDetails)
        (urg : Str) (iter fuel : Nat), appt.isSome = true →
        (((cardioLoop complete exec msgs log appt urg iter fuel).1).appointment_details).isSome =
          true) := by
  intro complete exec system_content history user_message
  refine ⟨?_, ?_, ?_⟩
  · exact cardioLoop_count_le complete exec 10 _ _ _ _ _
  · intro hpath
    obtain ⟨h1, h2, h3, h4, h5, ext, hext, hlen⟩ :=
      cardioLoop_pathological complete exec hpath 10 _ [] none _ 0
    refine ⟨h5, h1, h2, h3, h4, ?_⟩
    have hx : ((handle_cardiology_request complete exec system_content history
        user_message).1).tools_used = [] ++ ext := hext
    rw [hx]
    simpa using hlen
  · intro msgs log appt urg iter fuel h
    exact cardioLoop_appt_preserved complete exec fuel msgs log appt urg iter h

/-- A pathological completion service: every reply proposes a tool call. -/
def completeP : List ChatMsg → ModelReply :=
  fun _ =>
    { content := []
      tool_calls :=
        [{ id := "call1".toList, name := "search_appointment_slots".toList,
           arguments := [] }] }

/-- A dispatcher stub whose every result succeeds with the fixture details. -/
def execP : Str → Str → ToolExecResult :=
  fun _ _ => { success := true, appointment_details := dC1, content := "ok".toList }

/-- System-prompt stand-in (the prompt text plus retrieved context does not
affect the verified properties). -/
def sysW : Str := "You are a cardiology scheduling specialist.".toList

/-- Witness for claim C8 at a concrete pathological model. -/
theorem handle_cardiology_iteration_limit_witness :
    (handle_cardiology_request completeP execP sysW []
      ("I need a cardiology appointment".toList)).2 = 10 ∧
    ((handle_cardiology_request completeP execP sysW []
      ("I need a cardiology appointment".toList)).1).success = false ∧
    ((handle_cardiology_request completeP execP sysW []
      ("I need a cardiology appointment".toList)).1).error = some limitErrorMsg ∧
    ((handle_cardiology_request completeP execP sysW []
      ("I need a cardiology appointment".toList)).1).response = limitResponse ∧
    10 ≤ ((handle_cardiology_request completeP execP sysW []
      ("I need a cardiology appointment".toList)).1).tools_used.length := by
  have h := handle_cardiology_iteration_limit completeP execP sysW []
    ("I need a cardiology appointment".toList)
  have hpath : ∀ ms, (completeP ms).tool_calls ≠ [] := fun _ => by simp [completeP]
  obtain ⟨hc, hs, he, hr, _hi, hl⟩ := h.2.1 hpath
  exact ⟨hc, hs, he, hr, hl⟩

/-- A model that answers immediately, mentioning the word "emergency". -/
def completeEmg : List ChatMsg → ModelReply :=
  fun _ => { content := "If this is an emergency, go to the ER.".toList, tool_calls := [] }

/-- Counterexample to claim C9 as stated: the message contains the
emergency keyword "chest pain", so urgency is `emergent`, but because the
model's reply already contains the word "emergency", cardiology_agent.py
line 167 skips the prepend and the final response does NOT contain the
hard-coded emergency-redirect notice. -/
theorem cardiology_emergency_notice_counterexample :
    ((handle_cardiology_request completeEmg execP sysW []
      ("crushing chest pain radiating to my arm".toList)).1).urgency_level =
        "emergent".toList ∧
    ((handle_cardiology_request completeEmg execP sysW []
      ("crushing chest pain radiating to my arm".toList)).1).success = true ∧
    substrOf emergencyNotice
      ((handle_cardiology_request completeEmg execP sysW []
        ("crushing chest pain radiating to my arm".toList)).1).response = false := by
  decide

/-- Claim C9 (amended): a cardiology turn whose user message contains an
emergency keyword always reports urgency `emergent`, whatever tool calls
the model makes; and whenever the turn completes with a model reply (not
the iteration limit), the final response either starts with the hard-coded
emergency-redirect notice or already mentions "911" or "emergency" — the
prepend is skipped exactly in that latter case (line 167). -/
theorem cardiology_emergent_urgency :
    ∀ (complete : List ChatMsg → ModelReply) (exec : Str → Str → ToolExecResult)
      (system_content : Str) (history : List ChatMsg) (user_message : Str),
      (∃ k ∈ emergency_keywords, substrOf k (lowerStr user_message) = true) →
      ((handle_cardiology_request complete exec system_content history
          user_message).1).urgency_level = "emergent".toList ∧
      (((handle_cardiology_request complete exec system_content history
          user_message).1).success = true →
        substrOf emergencyNotice ((handle_cardiology_request complete exec system_content
          history user_message).1).response = true ∨
        substrOf ("911".toList) ((handle_cardiology_request complete exec system_content
          history user_message).1).response = true ∨
        substrOf ("emergency".toList) (lowerStr ((handle_cardiology_request complete exec
          system_content history user_message).1).response) = true) := by
  intro complete exec system_content history user_message hkey
  obtain ⟨k, hk, hsub⟩ := hkey
  have hscan : emergency_keywords.any (fun w => substrOf w (lowerStr user_message)) = true :=
    List.any_eq_true.mpr ⟨k, hk, hsub⟩
  have hhandle : handle_cardiology_request complete exec system_content history user_message =
      cardioLoop complete exec
        ({ role := "system".toList, content := system_content, tool_call_id := none,
           tool_calls := [] } ::
          (history.map historyMsg ++
            [{ role := "user".toList, content := user_message, tool_call_id := none,
               tool_calls := [] }])) [] none ("emergent".toList) 0 10 := by
    unfold handle_cardiology_request
    rw [if_pos hscan]
  rw [hhandle]
  constructor
  · exact cardioLoop_urgency complete exec 10 _ _ _ _ _
  · intro hsucc
    obtain ⟨content, hresp⟩ :=
      cardioLoop_success_response complete exec 10 _ _ _ _ _ hsucc
    by_cases hcond : substrOf ("911".toList) content = false ∧
        substrOf ("emergency".toList) (lowerStr content) = false
    · rw [hresp, if_pos ⟨rfl, hcond.1, hcond.2⟩]
      left
      exact substrOf_of_append emergencyNotice content
    · have hnc : ¬ ("emergent".toList = "emergent".toList ∧
          substrOf ("911".toList) content = false ∧
          substrOf ("emergency".toList) (lowerStr content) = false) := by
        intro hx
        exact hcond ⟨hx.2.1, hx.2.2⟩
      rw [hresp, if_neg hnc]
      rcases Decidable.not_and_iff_or_not.mp hcond with h9 | he
      · right; left
        cases hb : substrOf ("911".toList) content with
        | false => exact absurd hb h9
        | true => rfl
      · right; right
        cases hb : substrOf ("emergency".toList) (lowerStr content) with
        | false => exact absurd hb he
        | true => rfl

/-- A model that answers immediately with a neutral greeting. -/
def completeHello : List ChatMsg → ModelReply :=
  fun _ => { content := "Hello".toList, tool_calls := [] }

/-- Witness for claim C9: for a neutral reply the emergency-redirect notice
is prepended. -/
theorem cardiology_emergent_urgency_witness :
    ((handle_cardiology_request completeHello execP sysW []
      ("crushing chest pain radiating to my arm".toList)).1).urgency_level =
        "emergent".toList ∧
    (substrOf emergencyNotice ((handle_cardiology_request completeHello execP sysW []
        ("crushing chest pain radiating to my arm".toList)).1).response = true ∨
      substrOf ("911".toList) ((handle_cardiology_request completeHello execP sysW []
        ("crushing chest pain radiating to my arm".toList)).1).response = true ∨
      substrOf ("emergency".toList) (lowerStr ((handle_cardiology_request completeHello execP
        sysW [] ("crushing chest pain radiating to my arm".toList)).1).response) = true) := by
  have h := cardiology_emergent_urgency completeHello execP sysW []
    ("crushing chest pain radiating to my arm".toList)
    ⟨"chest pain".toList, by decide, by decide⟩
  exact ⟨h.1, h.2 (by decide)⟩
